import Mathlib

/-
  Verification development for the DustGround particle sandbox.

  Shallow embedding conventions:
  * Python floats are modelled as rationals (ℚ); float literals such as
    `0.01` are read as the exact rationals they denote in the source text.
  * Python `int(x)` on a float truncates toward zero; `x // c` is floor
    division.  Both are modelled explicitly below.
  * Python object identity (`id(p)`) is modelled by a `pid : ℕ` field
    carried by particles whose identity the code observes.
  * A Python dict used as a spatial hash is modelled as a total function
    from cells to (possibly empty) bucket lists; the code only ever reads
    buckets via `if cell in grid: extend(grid[cell])`, which coincides
    with reading the (empty-by-default) bucket of the functional map.
  * `random.random()` / `random.uniform` draws are modelled by consuming a
    stream of rationals supplied as an explicit argument.
  * Calls that can raise (`setattr` on a `__slots__` class without the
    attribute, attribute lookup of a missing method) are modelled in an
    error monad; `try/except` blocks in the source become total handlers.
-/

namespace DustGround

/-- Python `int(x)` on a float: truncation toward zero. -/
def pyInt (q : ℚ) : ℤ := q.num / q.den

/-- Python `int(x // c)`: floor division. -/
def pyFloorDiv (x c : ℚ) : ℤ := ⌊x / c⌋

/-! ## Spatial hash grid

Mirrors `SandSystem._get_cell`, `SandSystem._rebuild_grid` and
`SandSystem._get_neighbors` in `src/src/sand.py` (the same three-line
algorithm is duplicated verbatim in `water.py`, `metal.py`, `toxic.py`,
`ruby.py`, … so we embed it once, generically in the particle type with
coordinate projections `px`, `py`). -/

namespace MaterialSystem

variable {α : Type}

/-- `_get_cell`: `(int(x // cell_size), int(y // cell_size))`. -/
def getCell (cs : ℚ) (x y : ℚ) : ℤ × ℤ := (⌊x / cs⌋, ⌊y / cs⌋)

/-- `_rebuild_grid`: clear the grid, then append every particle to the
bucket of its own cell (buckets keep list order, like Python dict/list). -/
def rebuildGrid (cs : ℚ) (px py : α → ℚ) (ps : List α) : ℤ × ℤ → List α :=
  ps.foldl
    (fun g p => fun c => if c = getCell cs (px p) (py p) then g c ++ [p] else g c)
    (fun _ => [])

/-- Python `range(-radius, radius + 1)` as a list of integers. -/
def offsets (r : ℕ) : List ℤ := (List.range (2 * r + 1)).map (fun (i : ℕ) => (i : ℤ) - (r : ℤ))

/-- `_get_neighbors`: scan the `(2r+1) × (2r+1)` block of cells centred on
the cell of `(x, y)`, concatenating bucket contents in scan order. -/
def getNeighbors (cs : ℚ) (g : ℤ × ℤ → List α) (x y : ℚ) (r : ℕ) : List α :=
  (offsets r).foldl
    (fun acc dx =>
      (offsets r).foldl
        (fun acc2 dy => acc2 ++ g ((getCell cs x y).1 + dx, (getCell cs x y).2 + dy))
        acc)
    []

theorem rebuildGrid_eq_filter (cs : ℚ) (px py : α → ℚ) (ps : List α) (c : ℤ × ℤ) :
    rebuildGrid cs px py ps c = ps.filter (fun p => getCell cs (px p) (py p) = c) := by
  suffices h : ∀ g : ℤ × ℤ → List α,
      (ps.foldl
        (fun g p => fun c => if c = getCell cs (px p) (py p) then g c ++ [p] else g c) g) c
        = g c ++ ps.filter (fun p => getCell cs (px p) (py p) = c) by
    simpa [rebuildGrid] using h (fun _ => [])
  induction ps with
  | nil => simp
  | cons p ps ih =>
    intro g
    by_cases hc : getCell cs (px p) (py p) = c
    · simp only [List.foldl_cons, ih, List.filter_cons]
      simp [hc, eq_comm, List.append_assoc]
    · simp only [List.foldl_cons, ih, List.filter_cons]
      have hc' : ¬ c = getCell cs (px p) (py p) := fun h => hc h.symm
      simp [hc, hc']

theorem foldl_append_eq_flatMap {β γ : Type} (f : β → List γ) (l : List β) (acc : List γ) :
    l.foldl (fun a e => a ++ f e) acc = acc ++ l.flatMap f := by
  induction l generalizing acc with
  | nil => simp
  | cons e l ih => simp [ih, List.append_assoc]

theorem getNeighbors_eq_flatMap (cs : ℚ) (g : ℤ × ℤ → List α) (x y : ℚ) (r : ℕ) :
    getNeighbors cs g x y r =
      (offsets r).flatMap (fun dx =>
        (offsets r).flatMap (fun dy =>
          g ((getCell cs x y).1 + dx, (getCell cs x y).2 + dy))) := by
  unfold getNeighbors
  rw [List.foldl_ext
      (g := fun acc dx => acc ++ (offsets r).flatMap
        (fun dy => g ((getCell cs x y).1 + dx, (getCell cs x y).2 + dy)))]
  · rw [foldl_append_eq_flatMap]; simp
  · intro acc dx _
    exact foldl_append_eq_flatMap _ _ _

theorem mem_offsets {r : ℕ} {z : ℤ} : z ∈ offsets r ↔ -(r : ℤ) ≤ z ∧ z ≤ (r : ℤ) := by
  constructor
  · rintro hz
    simp only [offsets, List.mem_map, List.mem_range] at hz
    obtain ⟨i, hi, hz⟩ := hz
    omega
  · rintro ⟨h1, h2⟩
    simp only [offsets, List.mem_map, List.mem_range]
    refine ⟨(z + r).toNat, ?_, ?_⟩ <;> omega

end MaterialSystem

/-- `SandParticle.__init__` state (`src/src/sand.py`): position, velocity and
the `settled` / `wet` flags (mass and colour are constants never read by the
algorithms verified here). -/
structure SandParticle where
  x : ℚ
  y : ℚ
  vx : ℚ
  vy : ℚ
  settled : Bool
  wet : Bool
deriving DecidableEq, Repr

/-- `SandSystem.add_particle` builds a fresh particle at `(x, y)`. -/
def SandParticle.mk0 (x y : ℚ) : SandParticle :=
  { x := x, y := y, vx := 0, vy := 0, settled := false, wet := false }

section GridClaims

open MaterialSystem

/-- **C5.** Grid consistency: immediately after `_rebuild_grid()` every
particle `p` of the system's collection appears exactly once in the bucket
of its own cell `(int(p.x // cell_size), int(p.y // cell_size))` and in no
other cell's bucket.  (`Nodup` captures that the Python list holds distinct
objects; the generic `α`, `px`, `py` cover every `MaterialSystem`, whose
`_rebuild_grid`/`_get_cell` are textually identical.) -/
theorem grid_consistency {α : Type} [DecidableEq α] (cs : ℚ) (px py : α → ℚ)
    (ps : List α) (p : α) (hmem : p ∈ ps) (hnd : ps.Nodup) :
    (rebuildGrid cs px py ps (getCell cs (px p) (py p))).count p = 1 ∧
      ∀ c : ℤ × ℤ, c ≠ getCell cs (px p) (py p) → p ∉ rebuildGrid cs px py ps c := by
  constructor
  · rw [rebuildGrid_eq_filter]
    refine List.count_eq_one_of_mem (hnd.filter _) ?_
    exact List.mem_filter.mpr ⟨hmem, by simp⟩
  · intro c hc hp
    rw [rebuildGrid_eq_filter] at hp
    have := (List.mem_filter.mp hp).2
    simp only [decide_eq_true_eq] at this
    exact hc this.symm

/-- Witness for C5 at a concrete three-particle sand system with
`cell_size = 3`. -/
theorem grid_consistency_witness :
    (SandParticle.mk0 5 1 ∈ [SandParticle.mk0 0 0, SandParticle.mk0 5 1, SandParticle.mk0 100 50] ∧
      [SandParticle.mk0 0 0, SandParticle.mk0 5 1, SandParticle.mk0 100 50].Nodup) ∧
    ((rebuildGrid 3 SandParticle.x SandParticle.y
        [SandParticle.mk0 0 0, SandParticle.mk0 5 1, SandParticle.mk0 100 50]
        (getCell 3 (SandParticle.mk0 5 1).x (SandParticle.mk0 5 1).y)).count
          (SandParticle.mk0 5 1) = 1 ∧
      ∀ c : ℤ × ℤ, c ≠ getCell 3 (SandParticle.mk0 5 1).x (SandParticle.mk0 5 1).y →
        SandParticle.mk0 5 1 ∉ rebuildGrid 3 SandParticle.x SandParticle.y
          [SandParticle.mk0 0 0, SandParticle.mk0 5 1, SandParticle.mk0 100 50] c) :=
  ⟨⟨by decide, by decide⟩,
    grid_consistency 3 SandParticle.x SandParticle.y _ _ (by decide) (by decide)⟩

theorem floor_div_bracket {a b cs : ℚ} {r : ℕ} (hcs : 0 < cs) (h : |a - b| ≤ (r : ℚ) * cs) :
    ⌊b / cs⌋ - (r : ℤ) ≤ ⌊a / cs⌋ ∧ ⌊a / cs⌋ ≤ ⌊b / cs⌋ + (r : ℤ) := by
  obtain ⟨h1, h2⟩ := abs_le.mp h
  have hub : a / cs ≤ b / cs + ((r : ℤ) : ℚ) := by
    rw [← sub_le_iff_le_add', div_sub_div_same, div_le_iff₀ hcs]
    push_cast
    linarith
  have hlb : b / cs - ((r : ℤ) : ℚ) ≤ a / cs := by
    rw [sub_le_iff_le_add, ← sub_le_iff_le_add', div_sub_div_same, div_le_iff₀ hcs]
    push_cast
    linarith
  constructor
  · calc ⌊b / cs⌋ - (r : ℤ) = ⌊b / cs - ((r : ℤ) : ℚ)⌋ := (Int.floor_sub_int _ _).symm
      _ ≤ ⌊a / cs⌋ := Int.floor_le_floor hlb
  · calc ⌊a / cs⌋ ≤ ⌊b / cs + ((r : ℤ) : ℚ)⌋ := Int.floor_le_floor hub
      _ = ⌊b / cs⌋ + (r : ℤ) := Int.floor_add_int _ _

/-- **C6.** Bounded neighbour query has no false negatives: if `p` and `q`
belong to the same system and their Euclidean distance is at most
`radius * cell_size`, then after `_rebuild_grid()` the list returned by
`_get_neighbors(p.x, p.y, radius)` contains `q`: the scan visits the
`(2·radius+1)²` block of cells centred on `p`'s cell, and the floor-based
cell indices of `p` and `q` differ by at most `radius` per axis. -/
theorem get_neighbors_no_false_negative {α : Type} [DecidableEq α] (cs : ℚ) (hcs : 0 < cs)
    (px py : α → ℚ) (ps : List α) (p q : α) (_hp : p ∈ ps) (hq : q ∈ ps) (r : ℕ)
    (hdist : (px p - px q) ^ 2 + (py p - py q) ^ 2 ≤ ((r : ℚ) * cs) ^ 2) :
    q ∈ getNeighbors cs (rebuildGrid cs px py ps) (px p) (py p) r := by
  have hrcs : (0 : ℚ) ≤ (r : ℚ) * cs := by positivity
  have hxsq : (px q - px p) ^ 2 ≤ ((r : ℚ) * cs) ^ 2 := by nlinarith [sq_nonneg (py p - py q)]
  have hysq : (py q - py p) ^ 2 ≤ ((r : ℚ) * cs) ^ 2 := by nlinarith [sq_nonneg (px p - px q)]
  have hxabs : |px q - px p| ≤ (r : ℚ) * cs := abs_le.mpr (abs_le_of_sq_le_sq' hxsq hrcs)
  have hyabs : |py q - py p| ≤ (r : ℚ) * cs := abs_le.mpr (abs_le_of_sq_le_sq' hysq hrcs)
  obtain ⟨hx1, hx2⟩ := floor_div_bracket hcs hxabs
  obtain ⟨hy1, hy2⟩ := floor_div_bracket hcs hyabs
  rw [getNeighbors_eq_flatMap]
  rw [List.mem_flatMap]
  refine ⟨⌊px q / cs⌋ - ⌊px p / cs⌋, mem_offsets.mpr ⟨by omega, by omega⟩, ?_⟩
  rw [List.mem_flatMap]
  refine ⟨⌊py q / cs⌋ - ⌊py p / cs⌋, mem_offsets.mpr ⟨by omega, by omega⟩, ?_⟩
  have hcell : ((getCell cs (px p) (py p)).1 + (⌊px q / cs⌋ - ⌊px p / cs⌋),
      (getCell cs (px p) (py p)).2 + (⌊py q / cs⌋ - ⌊py p / cs⌋)) =
      getCell cs (px q) (py q) := by
    simp only [getCell, Prod.mk.injEq]
    omega
  rw [hcell, rebuildGrid_eq_filter]
  exact List.mem_filter.mpr ⟨hq, by simp⟩

/-- Witness for C6: two concrete sand particles `(10, 10)` and `(13, 12)`
at Euclidean distance `√13 ≤ 2 · 3`, with `radius = 2`, `cell_size = 3`. -/
theorem get_neighbors_no_false_negative_witness :
    ((0 : ℚ) < 3 ∧ SandParticle.mk0 10 10 ∈ [SandParticle.mk0 10 10, SandParticle.mk0 13 12] ∧
      SandParticle.mk0 13 12 ∈ [SandParticle.mk0 10 10, SandParticle.mk0 13 12] ∧
      ((10 : ℚ) - 13) ^ 2 + ((10 : ℚ) - 12) ^ 2 ≤ ((2 : ℚ) * 3) ^ 2) ∧
    SandParticle.mk0 13 12 ∈ getNeighbors 3
      (rebuildGrid 3 SandParticle.x SandParticle.y
        [SandParticle.mk0 10 10, SandParticle.mk0 13 12]) 10 10 2 :=
  ⟨⟨by norm_num, by decide, by decide, by norm_num⟩,
    get_neighbors_no_false_negative 3 (by norm_num) SandParticle.x SandParticle.y
      [SandParticle.mk0 10 10, SandParticle.mk0 13 12]
      (SandParticle.mk0 10 10) (SandParticle.mk0 13 12)
      (by decide) (by decide) 2 (by norm_num [SandParticle.mk0])⟩

end GridClaims

/-! ## WaterSystem (`src/src/water.py`)

`WaterParticle` has no `__slots__`, so the dynamically added `dead` flag is
representable as a field (default `false`).  `mass`, `color` and `pressure`
are set in `__init__` and never read by the code verified here.  `pid`
models Python object identity (`id(p)`).  The square root inside
`math.hypot` is an irrational operation on floats; it is modelled by an
uninterpreted parameter `sq : ℚ → ℚ` applied to `dx*dx + dy*dy`, so every
theorem below holds for any square-root implementation. -/

structure WaterParticle where
  pid : ℕ
  x : ℚ
  y : ℚ
  vx : ℚ
  vy : ℚ
  dead : Bool
deriving DecidableEq, Repr

instance : Inhabited WaterParticle := ⟨⟨0, 0, 0, 0, 0, false⟩⟩

namespace WaterSystem

/-- `WaterParticle.update(gravity, viscosity)`: gravity, viscosity damping,
integration, then the fall-speed cap (the cap is applied after the position
update, as in the source). -/
def particleUpdate (gravity viscosity : ℚ) (p : WaterParticle) : WaterParticle :=
  let vy1 := p.vy + gravity
  let vx2 := p.vx * (1 - viscosity)
  let vy2 := vy1 * (1 - viscosity)
  { p with x := p.x + vx2, y := p.y + vy2, vx := vx2,
           vy := if vy2 > 15 then 15 else vy2 }

/-- The four velocity writes of a water-water collision
(`particle.vx -= nx*separation; …; other.vy += ny*separation`); positions
are never written.  `i`, `j` index `particle` and `other`. -/
def collideUpdate (nx ny : ℚ) (i j : ℕ) (ps : List WaterParticle) : List WaterParticle :=
  let p := ps.getD i default
  let o := ps.getD j default
  let sep : ℚ := 3/10
  (ps.set i { p with vx := p.vx - nx * sep, vy := p.vy - ny * sep }).set j
    { o with vx := o.vx + nx * sep, vy := o.vy + ny * sep }

/-- The inner `for other in neighbors` loop of `_handle_collisions` for the
particle at index `i`, with the `checked` counter and the
`checked >= max_neighbors` break.  Particles are addressed by index into
the system's list (Python mutates them through references). -/
def collideNeighbors (sq : ℚ → ℚ) (maxNeighbors : ℕ) (i : ℕ) :
    List ℕ → List WaterParticle → ℕ → List WaterParticle
  | [], ps, _ => ps
  | j :: rest, ps, checked =>
    if i = j then collideNeighbors sq maxNeighbors i rest ps checked
    else
      let p := ps.getD i default
      let o := ps.getD j default
      let dx := o.x - p.x
      let dy := o.y - p.y
      let dist := sq (dx * dx + dy * dy)
      if 1/10 < dist ∧ dist < 5/2 then
        -- `if dist == 0: dist = 0.1` from the source (dead code under the
        -- guard above, kept for fidelity)
        let dist1 := if dist = 0 then 1/10 else dist
        let ps2 := collideUpdate (dx / dist1) (dy / dist1) i j ps
        if maxNeighbors ≤ checked + 1 then ps2
        else collideNeighbors sq maxNeighbors i rest ps2 (checked + 1)
      else collideNeighbors sq maxNeighbors i rest ps checked

/-- The outer `for particle in self.particles` loop of `_handle_collisions`:
for each index, query the grid (built once at entry) around the particle's
current position and run the inner loop. -/
def collideAll (sq : ℚ → ℚ) (cs : ℚ) (radius maxNeighbors : ℕ)
    (grid : ℤ × ℤ → List ℕ) : List ℕ → List WaterParticle → List WaterParticle
  | [], ps => ps
  | i :: rest, ps =>
    let p := ps.getD i default
    let neighbors := MaterialSystem.getNeighbors cs grid p.x p.y radius
    collideAll sq cs radius maxNeighbors grid rest
      (collideNeighbors sq maxNeighbors i neighbors ps 0)

/-- `WaterSystem._handle_collisions` with the `skip_mod` frame gate and the
`_rebuild_grid()` call (grid buckets hold references, modelled as indices
into the particle list). -/
def handleCollisions (sq : ℚ → ℚ) (cs : ℚ) (radius maxNeighbors skipMod : ℕ)
    (frame : ℕ) (ps : List WaterParticle) : List WaterParticle :=
  if skipMod > 1 ∧ frame % skipMod ≠ 0 then ps
  else
    let grid := MaterialSystem.rebuildGrid cs (fun i => (ps.getD i default).x)
      (fun i => (ps.getD i default).y) (List.range ps.length)
    collideAll sq cs radius maxNeighbors grid (List.range ps.length) ps

/-- `WaterSystem._handle_boundaries` for one particle: the four sequential
`if` blocks of the source. -/
def boundaryClamp (width height : ℚ) (p : WaterParticle) : WaterParticle :=
  let p := if p.y + 1 ≥ height then { p with y := height - 1, vy := p.vy * (-(3/10)) } else p
  let p := if p.y < 0 then { p with y := 0, vy := 0 } else p
  let p := if p.x < 0 then { p with x := 0, vx := p.vx * (-(3/10)) } else p
  if p.x ≥ width then { p with x := width - 1, vx := p.vx * (-(3/10)) } else p

def handleBoundaries (width height : ℚ) (ps : List WaterParticle) : List WaterParticle :=
  ps.map (boundaryClamp width height)

/-- `WaterSystem.update`.  The obstacle predicate is external and may raise:
it is modelled as `ℤ → ℤ → Option Bool`, `none` meaning the call raised.
The source has no `try/except` around `self._is_solid(...)`, so a raise
propagates out of `update`; correspondingly this function returns `none`
(the update did not complete). -/
def update (sq : ℚ → ℚ) (gravity viscosity cs : ℚ) (radius maxNeighbors skipMod : ℕ)
    (isSolid : Option (ℤ → ℤ → Option Bool)) (width height : ℚ) (frame : ℕ)
    (ps : List WaterParticle) : Option (List WaterParticle) := do
  let ps1 ← ps.mapM (fun p => do
    let p1 := particleUpdate gravity viscosity p
    match isSolid with
    | none => pure p1
    | some f =>
      match f (pyInt p1.x) (pyInt p1.y) with
      | none => none
      | some true => pure { p1 with x := p1.x - p1.vx, y := p1.y - p1.vy,
                                    vx := p1.vx * (-(1/5)), vy := p1.vy * (-(1/5)) }
      | some false => pure p1)
  let ps2 := handleCollisions sq cs radius maxNeighbors skipMod frame ps1
  let ps3 := handleBoundaries width height ps2
  pure (ps3.filter (fun p => -10 ≤ p.x ∧ p.x < width + 10 ∧ -10 ≤ p.y ∧ p.y < height + 10))

/-- `WaterSystem.sweep_dead`. -/
def sweepDead (ps : List WaterParticle) : List WaterParticle :=
  if ps = [] then ps else ps.filter (fun p => ¬ p.dead)

end WaterSystem

section C10Claims

open WaterSystem

/-- The observable the claim is about: particle positions. -/
def posOf (p : WaterParticle) : ℚ × ℚ := (p.x, p.y)

theorem map_set_of_eq {α β : Type} (f : α → β) (l : List α) (i : ℕ) (a : α)
    (h : ∀ hi : i < l.length, f a = f (l.get ⟨i, hi⟩)) :
    (l.set i a).map f = l.map f := by
  induction l generalizing i with
  | nil => simp
  | cons hd tl ih =>
    cases i with
    | zero => simpa using h (by simp)
    | succ n =>
      simp only [List.set_cons_succ, List.map_cons, List.cons.injEq, true_and]
      exact ih n (fun hi => h (by simpa using Nat.succ_lt_succ hi))

theorem getD_eq_get {α : Type} [Inhabited α] (l : List α) (i : ℕ) (hi : i < l.length) :
    l.getD i default = l.get ⟨i, hi⟩ := by
  simp [List.getD_eq_getElem?_getD, List.getElem?_eq_getElem hi]

theorem map_posOf_set (ps : List WaterParticle) (i : ℕ) (q : WaterParticle)
    (hx : q.x = (ps.getD i default).x) (hy : q.y = (ps.getD i default).y) :
    (ps.set i q).map posOf = ps.map posOf := by
  apply map_set_of_eq
  intro hi
  rw [getD_eq_get ps i hi] at hx hy
  simp [posOf, hx, hy]

theorem getD_set_ne (ps : List WaterParticle) (i j : ℕ) (q : WaterParticle)
    (hij : i ≠ j) : (ps.set i q).getD j default = ps.getD j default := by
  simp [List.getD_eq_getElem?_getD, List.getElem?_set_ne hij]

theorem collideUpdate_preserves_pos (nx ny : ℚ) (i j : ℕ) (hij : i ≠ j)
    (ps : List WaterParticle) :
    (collideUpdate nx ny i j ps).map posOf = ps.map posOf := by
  unfold collideUpdate
  have h1 : ((ps.set i { ps.getD i default with
      vx := (ps.getD i default).vx - nx * (3/10),
      vy := (ps.getD i default).vy - ny * (3/10) }).map posOf) = ps.map posOf :=
    map_posOf_set ps i _ rfl rfl
  refine (map_posOf_set _ j _ ?_ ?_).trans h1 <;>
    rw [getD_set_ne ps i j _ hij]

theorem collideNeighbors_preserves_pos (sq : ℚ → ℚ) (maxNeighbors i : ℕ)
    (js : List ℕ) (ps : List WaterParticle) (checked : ℕ) :
    (collideNeighbors sq maxNeighbors i js ps checked).map posOf = ps.map posOf := by
  induction js generalizing ps checked with
  | nil => simp [collideNeighbors]
  | cons j rest ih =>
    rw [collideNeighbors]
    by_cases hij : i = j
    · rw [if_pos hij]
      exact ih ps checked
    · rw [if_neg hij]
      by_cases hcond : (1/10 : ℚ) < sq (((ps.getD j default).x - (ps.getD i default).x) *
            ((ps.getD j default).x - (ps.getD i default).x) +
            ((ps.getD j default).y - (ps.getD i default).y) *
            ((ps.getD j default).y - (ps.getD i default).y)) ∧
          sq (((ps.getD j default).x - (ps.getD i default).x) *
            ((ps.getD j default).x - (ps.getD i default).x) +
            ((ps.getD j default).y - (ps.getD i default).y) *
            ((ps.getD j default).y - (ps.getD i default).y)) < 5/2
      · rw [if_pos hcond]
        by_cases hbreak : maxNeighbors ≤ checked + 1
        · rw [if_pos hbreak]
          exact collideUpdate_preserves_pos _ _ i j hij ps
        · rw [if_neg hbreak]
          exact (ih _ _).trans (collideUpdate_preserves_pos _ _ i j hij ps)
      · rw [if_neg hcond]
        exact ih ps checked

theorem collideAll_preserves_pos (sq : ℚ → ℚ) (cs : ℚ) (radius maxNeighbors : ℕ)
    (grid : ℤ × ℤ → List ℕ) (idxs : List ℕ) (ps : List WaterParticle) :
    (collideAll sq cs radius maxNeighbors grid idxs ps).map posOf = ps.map posOf := by
  induction idxs generalizing ps with
  | nil => simp [collideAll]
  | cons i rest ih =>
    rw [collideAll]
    exact (ih _).trans (collideNeighbors_preserves_pos sq maxNeighbors i _ ps 0)

/-- **C10.** `WaterSystem._handle_collisions` is velocity-only: it never
modifies any particle's position `(x, y)` — the position multiset (indeed
the position list, in order) is unchanged for every input system state,
every tuning parameter, every frame index, and every square-root
implementation `sq`.  Consequently, inside `WaterSystem.update` positions
change only through integration, the obstacle rollback and the boundary
clamp. -/
theorem handle_collisions_velocity_only (sq : ℚ → ℚ) (cs : ℚ)
    (radius maxNeighbors skipMod frame : ℕ) (ps : List WaterParticle) :
    (handleCollisions sq cs radius maxNeighbors skipMod frame ps).map posOf =
      ps.map posOf := by
  unfold handleCollisions
  by_cases hskip : skipMod > 1 ∧ frame % skipMod ≠ 0
  · rw [if_pos hskip]
  · rw [if_neg hskip]
    exact collideAll_preserves_pos _ _ _ _ _ _ _

end C10Claims

/-! ## Ragdoll NPC (`src/src/npc.py`)

Verlet particles with constraint relaxation.  `pygame.math.Vector2` is a
pair of floats, modelled as a pair of rationals.  All square roots
(`math.sqrt`, `Vector2.length()`, `** 0.5`) are modelled by an
uninterpreted parameter `sq : ℚ → ℚ` applied to the squared quantity.
The externally supplied obstacle predicate `solid_query` may raise; it is
modelled as `ℤ → ℤ → Option Bool` with `none` meaning the call raised
(`_nudge_particle_from_solid` catches and treats it as not-solid,
`_resolve_block_contacts` catches and stops the scan). -/

structure Vec2 where
  x : ℚ
  y : ℚ
deriving DecidableEq, Repr

/-- `npc.Particle`: current position, previous position, accumulated
acceleration, mass. -/
structure NpcParticle where
  pos : Vec2
  prev : Vec2
  acc : Vec2
  mass : ℚ
deriving DecidableEq, Repr

instance : Inhabited NpcParticle := ⟨⟨⟨0, 0⟩, ⟨0, 0⟩, ⟨0, 0⟩, 1⟩⟩

/-- Obstacle predicate: `none` = the call raised an exception. -/
def SolidQ : Type := ℤ → ℤ → Option Bool

/-- The `NPC` instance state read and written by `NPC.update`. -/
structure NPC where
  particles : List NpcParticle
  constraints : List (ℕ × ℕ × ℚ)
  gravity : Vec2
  iterations : ℕ
  user_dragging : Bool
  sleepTorso : Bool
  freezeTorso : Bool
  standAnchorX : Option ℚ
  frameCounter : ℕ
  torsoStillFrames : ℕ
  feetGrounded : ℕ
  burnTimer : ℤ
  toxicTimer : ℤ
  headSize : ℚ
deriving DecidableEq, Repr

namespace NPC

/-- `self._torso_layout = {0: -60, 1: -30, 2: 0, 3: 30, 4: 60}`. -/
def torsoLayout (i : ℕ) : ℚ :=
  if i = 0 then -60 else if i = 1 then -30 else if i = 2 then 0
  else if i = 3 then 30 else if i = 4 then 60 else 0

/-- `Particle.apply_force`: `acc += f / max(mass, 1e-06)`. -/
def applyForce (f : Vec2) (p : NpcParticle) : NpcParticle :=
  let m := max p.mass (1 / 1000000)
  { p with acc := ⟨p.acc.x + f.x / m, p.acc.y + f.y / m⟩ }

/-- `Particle.update(dt)`: Verlet step, then reset acceleration. -/
def verlet (dt : ℚ) (p : NpcParticle) : NpcParticle :=
  let vel : Vec2 := ⟨p.pos.x - p.prev.x, p.pos.y - p.prev.y⟩
  { p with prev := p.pos,
           pos := ⟨p.pos.x + vel.x + p.acc.x * (dt * dt),
                   p.pos.y + vel.y + p.acc.y * (dt * dt)⟩,
           acc := ⟨0, 0⟩ }

/-- Anti-tunneling clamp (`max_step = 40.0`); `sq` models `math.sqrt`. -/
def maxStepClamp (sq : ℚ → ℚ) (p : NpcParticle) : NpcParticle :=
  let sx := p.pos.x - p.prev.x
  let sy := p.pos.y - p.prev.y
  let d2 := sx * sx + sy * sy
  if d2 > 40 * 40 then
    let d := sq d2
    if d > 0 then
      let s := 40 / d
      { p with pos := ⟨p.prev.x + sx * s, p.prev.y + sy * s⟩ }
    else p
  else p

/-- World-bounds clamp (the two `if` ladders of lines 104–114 / 174–184). -/
def clampParticle (w h : ℤ) (p : NpcParticle) : NpcParticle :=
  let px := if p.pos.x < 0 then 0 else p.pos.x
  let px := if px > (w : ℚ) - 1 then (w : ℚ) - 1 else px
  let py := if p.pos.y < 0 then 0 else p.pos.y
  let py := if py > (h : ℚ) - 1 then (h : ℚ) - 1 else py
  { p with pos := ⟨px, py⟩ }

/-- The `for _ in range(max_iter)` loop of `_nudge_particle_from_solid`,
returning the particle and the `moved_x` / `moved_y` flags.  A raising
`solid_query` (`none`) is caught and treated as not-solid. -/
def nudgeLoop (q : SolidQ) (bounds : Option (ℤ × ℤ)) :
    ℕ → NpcParticle → Bool → Bool → NpcParticle × Bool × Bool
  | 0, p, mx, my => (p, mx, my)
  | fuel + 1, p, mx, my =>
    let ix := pyInt p.pos.x
    let iy := pyInt p.pos.y
    let outOfBounds : Bool := match bounds with
      | some (w, h) => decide (ix < 0) || decide (ix ≥ w) || decide (iy < 0) || decide (iy ≥ h)
      | none => false
    if outOfBounds then (p, mx, my)
    else
      let inside := match q ix iy with
        | none => false
        | some b => b
      if inside = false then (p, mx, my)
      else
        let fx := p.pos.x - (ix : ℚ)
        let fy := p.pos.y - (iy : ℚ)
        let distLeft := fx
        let distRight := 1 - fx
        let distTop := fy
        let distBottom := 1 - fy
        let minDist := min (min distLeft distRight) (min distTop distBottom)
        if minDist = distTop then
          nudgeLoop q bounds fuel { p with pos := ⟨p.pos.x, (iy : ℚ) - 1/100⟩ } mx true
        else if minDist = distBottom then
          nudgeLoop q bounds fuel { p with pos := ⟨p.pos.x, (iy : ℚ) + 101/100⟩ } mx true
        else if minDist = distLeft then
          nudgeLoop q bounds fuel { p with pos := ⟨(ix : ℚ) - 1/100, p.pos.y⟩ } true my
        else
          nudgeLoop q bounds fuel { p with pos := ⟨(ix : ℚ) + 101/100, p.pos.y⟩ } true my

/-- The trailing bounds clamp of `_nudge_particle_from_solid`
(lines 371–384): two `if/elif` ladders that also set the moved flags. -/
def nudgeBoundsClamp (w h : ℤ) (p : NpcParticle) (mx my : Bool) :
    NpcParticle × Bool × Bool :=
  let xr : ℚ × Bool :=
    if p.pos.x < 0 then (0, true)
    else if p.pos.x > (w : ℚ) - 1 then ((w : ℚ) - 1, true)
    else (p.pos.x, mx)
  let yr : ℚ × Bool :=
    if p.pos.y < 0 then (0, true)
    else if p.pos.y > (h : ℚ) - 1 then ((h : ℚ) - 1, true)
    else (p.pos.y, my)
  ({ p with pos := ⟨xr.1, yr.1⟩ }, xr.2, yr.2)

/-- `NPC._nudge_particle_from_solid`: the push-out loop, the trailing bounds
clamp, and the `prev` damping keyed on `moved_x` / `moved_y`. -/
def nudgeParticle (q : SolidQ) (bounds : Option (ℤ × ℤ)) (p0 : NpcParticle) : NpcParticle :=
  let origPrevX := p0.prev.x
  let origPrevY := p0.prev.y
  let r0 := nudgeLoop q bounds 4 p0 false false
  let r1 :=
    match bounds with
    | some (w, h) => nudgeBoundsClamp w h r0.1 r0.2.1 r0.2.2
    | none => r0
  let p := r1.1
  let mx := r1.2.1
  let my := r1.2.2
  let p :=
    if mx then
      let vx := p.pos.x - origPrevX
      { p with prev := ⟨p.pos.x - vx * (1/10), p.prev.y⟩ }
    else p
  if my then
    let vy := p.pos.y - origPrevY
    if vy < 0 then { p with prev := ⟨p.prev.x, p.pos.y⟩ }
    else { p with prev := ⟨p.prev.x, p.pos.y - vy * (1/10)⟩ }
  else p

/-- The `for step in range(4)` tile scan under a foot inside
`_resolve_block_contacts`; `none` = no solid tile found (including the
`except: break` case when the query raises and the bounds break). -/
def footScan (q : SolidQ) (hOpt : Option ℤ) (fx baseY : ℤ) : List ℤ → Option ℤ
  | [] => none
  | step :: rest =>
    let tileY := baseY + step
    let outOfBounds : Bool := match hOpt with
      | some h => decide (tileY < 0) || decide (tileY ≥ h)
      | none => false
    if outOfBounds then none
    else
      match q fx tileY with
      | none => none
      | some true => some tileY
      | some false => footScan q hOpt fx baseY rest

/-- Per-foot logic of `_resolve_block_contacts`: snap onto a found solid
tile, else onto the world ground; returns the updated foot and the grounded
sample (`none` if not grounded). -/
def resolveFoot (qOpt : Option SolidQ) (bounds : Option (ℤ × ℤ))
    (foot : NpcParticle) : NpcParticle × Option ℚ :=
  let hit : Option ℤ :=
    match qOpt with
    | none => none
    | some q => footScan q (bounds.map Prod.snd) (pyInt foot.pos.x) (pyInt foot.pos.y)
        [0, 1, 2, 3]
  match hit with
  | some tileY =>
    let target := (tileY : ℚ) - 1/100
    let foot := if foot.pos.y > target then { foot with pos := ⟨foot.pos.x, target⟩ } else foot
    let vx := foot.pos.x - foot.prev.x
    ({ foot with prev := ⟨foot.pos.x - vx * (2/10), foot.pos.y⟩ }, some foot.pos.y)
  | none =>
    match bounds with
    | some (_, h) =>
      if foot.pos.y ≥ (h : ℚ) - 1 then
        let foot := { foot with pos := ⟨foot.pos.x, (h : ℚ) - 1⟩ }
        let vx := foot.pos.x - foot.prev.x
        ({ foot with prev := ⟨foot.pos.x - vx * (2/10), foot.pos.y⟩ }, some foot.pos.y)
      else (foot, none)
    | none => (foot, none)

/-- `NPC._resolve_block_contacts`: process feet 7 and 8, count grounded
feet, average the grounded samples (falling back to the world ground). -/
def resolveBlockContacts (qOpt : Option SolidQ) (bounds : Option (ℤ × ℤ))
    (npc : NPC) : NPC × ℕ × Option ℚ :=
  let r7 := resolveFoot qOpt bounds (npc.particles.getD 7 default)
  let r8 := resolveFoot qOpt bounds (npc.particles.getD 8 default)
  let particles := (npc.particles.set 7 r7.1).set 8 r8.1
  let samples := ([r7.2, r8.2].filterMap id)
  let feet := samples.length
  let groundY : Option ℚ :=
    if samples ≠ [] then some (samples.sum / (samples.length : ℚ))
    else match bounds with
      | some (_, h) => some ((h : ℚ) - 1)
      | none => none
  ({ npc with particles := particles }, feet, groundY)

/-- The rigid standing pose (lines 121–148), entered when both feet are
grounded and the user is not dragging. -/
def rigidLayout (gy : ℚ) (npc : NPC) : NPC :=
  let fx := ((npc.particles.getD 7 default).pos.x + (npc.particles.getD 8 default).pos.x) / 2
  let baseY := gy - 60
  let place : Vec2 → NpcParticle → NpcParticle := fun v p => { p with pos := v, prev := v }
  let ps := npc.particles
  let ps := ps.set 0 (place ⟨fx, baseY - 120⟩ (ps.getD 0 default))
  let ps := ps.set 1 (place ⟨fx, baseY - 90⟩ (ps.getD 1 default))
  let ps := ps.set 2 (place ⟨fx, baseY - 60⟩ (ps.getD 2 default))
  let ps := ps.set 3 (place ⟨fx, baseY - 30⟩ (ps.getD 3 default))
  let ps := ps.set 4 (place ⟨fx, baseY⟩ (ps.getD 4 default))
  let armY := baseY - 10
  let ps := ps.set 5 (place ⟨fx - 10, armY⟩ (ps.getD 5 default))
  let ps := ps.set 6 (place ⟨fx + 10, armY⟩ (ps.getD 6 default))
  let ps := ps.set 7 (place ⟨fx - 14, gy⟩ (ps.getD 7 default))
  let ps := ps.set 8 (place ⟨fx + 14, gy⟩ (ps.getD 8 default))
  { npc with particles := ps }

/-- `NPC._stand_targets`: computes the motor targets and smooths the
standing anchor (`_stand_anchor_x`).  The returned association list keeps
the Python dict's insertion order `4,3,2,1,0,7,8,5,6`. -/
def standTargets (npc : NPC) (gyOpt : Option ℚ) : NPC × List (ℕ × Vec2) :=
  let pelvis := (npc.particles.getD 4 default).pos
  let fx := match gyOpt with
    | some _ => ((npc.particles.getD 7 default).pos.x + (npc.particles.getD 8 default).pos.x) / 2
    | none => pelvis.x
  let anchor := match npc.standAnchorX with
    | none => fx
    | some a => a * (85/100) + fx * (15/100)
  let npc := { npc with standAnchorX := some anchor }
  let gy := match gyOpt with
    | some g => g
    | none => pelvis.y + 60
  let spacing : ℚ := 22
  let t4 : Vec2 := ⟨anchor, min (gy - 60) pelvis.y⟩
  let t3 : Vec2 := ⟨anchor, t4.y - spacing⟩
  let t2 : Vec2 := ⟨anchor, t3.y - spacing⟩
  let t1 : Vec2 := ⟨anchor, t2.y - spacing⟩
  let t0 : Vec2 := ⟨anchor, t1.y - npc.headSize * (6/10)⟩
  let footOff : ℚ := 14
  let t7 : Vec2 := ⟨anchor - footOff, gy⟩
  let t8 : Vec2 := ⟨anchor + footOff, gy⟩
  let armDrop : ℚ := 14
  let t5 : Vec2 := ⟨anchor - 18, t2.y + armDrop⟩
  let t6 : Vec2 := ⟨anchor + 18, t2.y + armDrop⟩
  (npc, [(4, t4), (3, t3), (2, t2), (1, t1), (0, t0), (7, t7), (8, t8), (5, t5), (6, t6)])

/-- One `for idx, tgt in targets.items()` iteration of `_apply_motors`. -/
def motorStep (k strength damping : ℚ) (sleepT : Bool) (ps : List NpcParticle)
    (it : ℕ × Vec2) : List NpcParticle :=
  let (idx, tgt) := it
  if sleepT && decide (idx ≤ 4) then ps
  else
    let p := ps.getD idx default
    let dx := tgt.x - p.pos.x
    let dy := tgt.y - p.pos.y
    if |dx| < 1/2 ∧ |dy| < 1/2 then ps
    else
      let sx : ℚ := if idx = 7 ∨ idx = 8 then 1/2 else if idx ≤ 4 then 9/10 else 1
      let sy : ℚ := if idx = 7 ∨ idx = 8 then 1 else if idx ≤ 4 then 9/10 else 1
      let gain : ℚ := if idx = 7 ∨ idx = 8 then 8/10
        else if idx ≤ 4 then (if idx = 0 then 1/2 else 6/10) else 1
      let cap : ℚ := if idx = 7 ∨ idx = 8 then 8
        else if idx ≤ 4 then (if idx = 0 then 6 else 7) else 8
      let mx := dx * strength * (1/2) * k * sx * gain
      let my := dy * strength * 1 * k * sy * gain
      let mx := if mx > cap then cap else if mx < -cap then -cap else mx
      let my := if my > cap then cap else if my < -cap then -cap else my
      let px := p.pos.x + mx
      let py := p.pos.y + my
      let newPos : Vec2 := ⟨px, py⟩
      let newPrev : Vec2 := ⟨px - (px - p.prev.x) * damping, py - (py - p.prev.y) * damping⟩
      ps.set idx { p with pos := newPos, prev := newPrev }

/-- `NPC._apply_motors`: drop torso targets when frozen, run the motor
steps, then the micro-sleep snap over all particles. -/
def applyMotors (k strength damping : ℚ) (freezeT sleepT : Bool)
    (targets : List (ℕ × Vec2)) (ps : List NpcParticle) : List NpcParticle :=
  let targets := if freezeT then targets.filter (fun it => decide (it.1 > 4)) else targets
  let ps := targets.foldl (motorStep k strength damping sleepT) ps
  ps.map (fun p =>
    if (p.pos.x - p.prev.x) * (p.pos.x - p.prev.x) +
        (p.pos.y - p.prev.y) * (p.pos.y - p.prev.y) < 9/100
    then { p with prev := p.pos } else p)

/-- `NPC._apply_stand_controller`. -/
def standController (dt : ℚ) (gyOpt : Option ℚ) (npc0 : NPC) : NPC :=
  if npc0.freezeTorso then npc0
  else
    let st := standTargets npc0 gyOpt
    let npc := st.1
    let targets := st.2
    let strength : ℚ := if npc.user_dragging then 6 else 8
    let damping : ℚ := if npc.user_dragging then 9/10 else 37/40
    let targets := if npc.sleepTorso then
        targets.map (fun it =>
          if it.1 ≤ 4 then (it.1, (npc.particles.getD it.1 default).pos) else it)
      else targets
    let k := min 1 (max 0 (dt * 60))
    { npc with particles :=
        applyMotors k strength damping npc.freezeTorso npc.sleepTorso targets npc.particles }

/-- One constraint of the relaxation loop (lines 152–172), including the
over-stretch pull. -/
def constraintStep (sq : ℚ → ℚ) (skipAll : Bool) (ps : List NpcParticle)
    (c : ℕ × ℕ × ℚ) : List NpcParticle :=
  let (i, j, rest) := c
  if skipAll && (decide (i ≤ 8) || decide (j ≤ 8)) then ps
  else
    let pa := ps.getD i default
    let pb := ps.getD j default
    let dLx := pb.pos.x - pa.pos.x
    let dLy := pb.pos.y - pa.pos.y
    let d := sq (dLx * dLx + dLy * dLy)
    if d = 0 then ps
    else
      let diff := (d - rest) / d
      let cx := dLx * (1/2) * diff
      let cy := dLy * (1/2) * diff
      let ps := ps.set i { pa with pos := ⟨pa.pos.x + cx, pa.pos.y + cy⟩ }
      let pb1 := ps.getD j default
      let ps := ps.set j { pb1 with pos := ⟨pb1.pos.x - cx, pb1.pos.y - cy⟩ }
      if d > rest * (13/10) then
        let pull := (d - rest * (11/10)) / d
        let ax := dLx * (pull * (4/10))
        let ay := dLy * (pull * (4/10))
        let pa2 := ps.getD i default
        let ps := ps.set i
          { pa2 with pos := ⟨pa2.pos.x + ax * (-(1/2)), pa2.pos.y + ay * (-(1/2))⟩ }
        let pb2 := ps.getD j default
        ps.set j { pb2 with pos := ⟨pb2.pos.x + ax * (1/2), pb2.pos.y + ay * (1/2)⟩ }
      else ps

/-- `for _ in range(self.iterations): for i, j, rest in self.constraints`. -/
def constraintIterations (sq : ℚ → ℚ) (skipAll : Bool) (cs : List (ℕ × ℕ × ℚ)) :
    ℕ → List NpcParticle → List NpcParticle
  | 0, ps => ps
  | n + 1, ps => constraintIterations sq skipAll cs n (cs.foldl (constraintStep sq skipAll) ps)

/-- Frozen-torso tail (lines 201–220): re-seat the torso column on the
pelvis (x snapped to the mid-feet when bounds are present). -/
def freezeTail (bounds : Option (ℤ × ℤ)) (npc : NPC) : NPC :=
  let pelvis := (npc.particles.getD 4 default).pos
  let pelvisX := match bounds with
    | some _ => ((npc.particles.getD 7 default).pos.x + (npc.particles.getD 8 default).pos.x) / 2
    | none => pelvis.x
  let ps := [0, 1, 2, 3, 4].foldl (fun ps idx =>
      let ty := pelvis.y + torsoLayout idx - 60
      ps.set idx { ps.getD idx default with pos := ⟨pelvisX, ty⟩, prev := ⟨pelvisX, ty⟩ }) npc.particles
  { npc with particles := ps }

/-- Default (awake) tail: torso x-averaging, velocity damping, average
speed, sleep bookkeeping and the prev-snap loops (lines 221–268). -/
def defaultTail (sq : ℚ → ℚ) (feet : ℕ) (npc : NPC) : NPC :=
  let torso : List ℕ := [0, 1, 2, 3, 4]
  let ps := npc.particles
  let avgX := (torso.map (fun i => (ps.getD i default).pos.x)).sum / 5
  let ps := torso.foldl (fun ps i =>
      let p := ps.getD i default
      ps.set i { p with pos := ⟨p.pos.x * (9/10) + avgX * (1/10), p.pos.y⟩ }) ps
  let ps := torso.foldl (fun ps i =>
      let p := ps.getD i default
      let vx := p.pos.x - p.prev.x
      let vy := p.pos.y - p.prev.y
      ps.set i { p with prev := ⟨p.pos.x - vx * (6/10), p.pos.y - vy * (6/10)⟩ }) ps
  let avgV := (torso.map (fun i =>
      let p := ps.getD i default
      sq ((p.pos.x - p.prev.x) * (p.pos.x - p.prev.x) +
          (p.pos.y - p.prev.y) * (p.pos.y - p.prev.y)))).sum / 5
  let stillAndGrounded : Bool :=
    decide (avgV < 12/100) && decide (feet = 2) && !npc.user_dragging
  let tsf := if stillAndGrounded then npc.torsoStillFrames + 1 else 0
  let sleep :=
    if stillAndGrounded then (if tsf > 20 then true else npc.sleepTorso)
    else (if avgV > 3/10 then false else npc.sleepTorso)
  let ps :=
    if sleep && decide (feet = 2) && !npc.user_dragging then
      let ps := torso.foldl (fun ps i =>
          let p := ps.getD i default
          ps.set i { p with prev := p.pos }) ps
      [0, 1].foldl (fun ps i =>
          let p := ps.getD i default
          ps.set i { p with prev := p.pos }) ps
    else
      if decide (feet = 2) && !npc.user_dragging && decide (avgV < 25/100) then
        [0, 1].foldl (fun ps i =>
            let p := ps.getD i default
            let vx := p.pos.x - p.prev.x
            let vy := p.pos.y - p.prev.y
            if vx * vx + vy * vy < 4/100 then ps.set i { p with prev := p.pos } else ps) ps
      else ps
  { npc with particles := ps, torsoStillFrames := tsf, sleepTorso := sleep }

/-- The trailing burn/toxic timer decrements present on every return path. -/
def tickTimers (npc : NPC) : NPC :=
  { npc with
    burnTimer := if npc.burnTimer > 0 then npc.burnTimer - 1 else npc.burnTimer,
    toxicTimer := if npc.toxicTimer > 0 then npc.toxicTimer - 1 else npc.toxicTimer }

/-- Lines 81–172 of `NPC.update`: gravity, Verlet integration, the
anti-tunneling clamp, the first bounds clamp and nudge pass, block
contacts, the rigid pose, the stand controller, and constraint
relaxation.  Returns the state together with `rigid_active` and
`feet_grounded`. -/
def updateCore (sq : ℚ → ℚ) (dt : ℚ) (bounds : Option (ℤ × ℤ)) (qOpt : Option SolidQ)
    (npc0 : NPC) : NPC × Bool × ℕ :=
  let npc := { npc0 with frameCounter := npc0.frameCounter + 1 }
  let npc := if npc.user_dragging then
      { npc with sleepTorso := false, torsoStillFrames := 0 } else npc
  let npc := { npc with particles := npc.particles.mapIdx (fun i p =>
      if (npc.freezeTorso || npc.sleepTorso) && decide (i ≤ 4) then p
      else applyForce ⟨npc.gravity.x * p.mass, npc.gravity.y * p.mass⟩ p) }
  let npc := { npc with particles := npc.particles.map (verlet dt) }
  let npc := { npc with particles := npc.particles.map (maxStepClamp sq) }
  let npc := match bounds with
    | some (w, h) => { npc with particles := npc.particles.map (clampParticle w h) }
    | none => npc
  let npc := match qOpt with
    | some q => { npc with particles := npc.particles.map (nudgeParticle q bounds) }
    | none => npc
  let res := resolveBlockContacts qOpt bounds npc
  let npc := { res.1 with feetGrounded := res.2.1 }
  let groundY := res.2.2
  let rigidActive : Bool := groundY.isSome && decide (res.2.1 = 2) && !npc.user_dragging
  let npc := if rigidActive then rigidLayout (groundY.getD 0) npc else npc
  let npc := if (!npc.freezeTorso) && (!rigidActive) && decide (npc.frameCounter % 2 = 0)
    then standController (dt * (6/10)) groundY npc else npc
  let relaxed := constraintIterations sq (npc.freezeTorso || rigidActive) npc.constraints
    npc.iterations npc.particles
  ({ npc with particles := relaxed }, rigidActive, res.2.1)

/-- Lines 174 to the end of `NPC.update`: the final bounds clamp, the final
nudge pass, and the per-controller-state tails. -/
def updateTail (sq : ℚ → ℚ) (bounds : Option (ℤ × ℤ)) (qOpt : Option SolidQ)
    (rigidActive : Bool) (feet : ℕ) (npcIn : NPC) : NPC :=
  let npc := match bounds with
    | some (w, h) => { npcIn with particles := npcIn.particles.map (clampParticle w h) }
    | none => npcIn
  let npc := match qOpt with
    | some q => { npc with particles := npc.particles.map (nudgeParticle q bounds) }
    | none => npc
  if rigidActive then
    tickTimers { npc with particles := npc.particles.map (fun p => { p with prev := p.pos }) }
  else if npc.freezeTorso then
    tickTimers (freezeTail bounds npc)
  else
    tickTimers (defaultTail sq feet npc)

/-- `NPC.update(dt, bounds, solid_query)`. -/
def update (sq : ℚ → ℚ) (dt : ℚ) (bounds : Option (ℤ × ℤ)) (qOpt : Option SolidQ)
    (npc0 : NPC) : NPC :=
  let core := updateCore sq dt bounds qOpt npc0
  updateTail sq bounds qOpt core.2.1 core.2.2 core.1

end NPC

section C9Claims

open NPC

/-- The world-bounds predicate of the claim:
`0 <= pos.x <= w-1 and 0 <= pos.y <= h-1`. -/
def inBounds (w h : ℤ) (p : NpcParticle) : Prop :=
  0 ≤ p.pos.x ∧ p.pos.x ≤ (w : ℚ) - 1 ∧ 0 ≤ p.pos.y ∧ p.pos.y ≤ (h : ℚ) - 1

theorem clampParticle_inBounds {w h : ℤ} (hw : 1 ≤ w) (hh : 1 ≤ h) (p : NpcParticle) :
    inBounds w h (clampParticle w h p) := by
  have hw' : (1 : ℚ) ≤ (w : ℚ) := by exact_mod_cast hw
  have hh' : (1 : ℚ) ≤ (h : ℚ) := by exact_mod_cast hh
  simp only [clampParticle, inBounds]
  split_ifs <;> refine ⟨?_, ?_, ?_, ?_⟩ <;> linarith

theorem nudgeBoundsClamp_inBounds {w h : ℤ} (hw : 1 ≤ w) (hh : 1 ≤ h)
    (p : NpcParticle) (mx my : Bool) :
    inBounds w h (nudgeBoundsClamp w h p mx my).1 := by
  have hw' : (1 : ℚ) ≤ (w : ℚ) := by exact_mod_cast hw
  have hh' : (1 : ℚ) ≤ (h : ℚ) := by exact_mod_cast hh
  simp only [nudgeBoundsClamp, inBounds]
  split_ifs <;> refine ⟨?_, ?_, ?_, ?_⟩ <;> dsimp only <;> linarith

theorem nudgeParticle_inBounds {w h : ℤ} (hw : 1 ≤ w) (hh : 1 ≤ h)
    (q : SolidQ) (p0 : NpcParticle) :
    inBounds w h (nudgeParticle q (some (w, h)) p0) := by
  unfold nudgeParticle
  generalize nudgeLoop q (some (w, h)) 4 p0 false false = r0
  obtain ⟨p1, mx1, my1⟩ := r0
  dsimp only
  have hb := nudgeBoundsClamp_inBounds hw hh p1 mx1 my1
  generalize hgen : nudgeBoundsClamp w h p1 mx1 my1 = r1 at hb ⊢
  obtain ⟨p2, mx2, my2⟩ := r1
  dsimp only at hb ⊢
  split_ifs <;> exact hb

theorem inBounds_default {w h : ℤ} (hw : 1 ≤ w) (hh : 1 ≤ h) :
    inBounds w h (default : NpcParticle) := by
  have hw' : (1 : ℚ) ≤ (w : ℚ) := by exact_mod_cast hw
  have hh' : (1 : ℚ) ≤ (h : ℚ) := by exact_mod_cast hh
  show inBounds w h ⟨⟨0, 0⟩, ⟨0, 0⟩, ⟨0, 0⟩, 1⟩
  exact ⟨le_refl _, show (0 : ℚ) ≤ (w : ℚ) - 1 by linarith,
    le_refl _, show (0 : ℚ) ≤ (h : ℚ) - 1 by linarith⟩

theorem getD_inBounds {w h : ℤ} (hw : 1 ≤ w) (hh : 1 ≤ h)
    {ps : List NpcParticle} (hinv : ∀ p ∈ ps, inBounds w h p) (i : ℕ) :
    inBounds w h (ps.getD i default) := by
  by_cases hi : i < ps.length
  · rw [getD_eq_get ps i hi]
    exact hinv _ (List.get_mem ps i hi)
  · rw [List.getD_eq_getElem?_getD, List.getElem?_eq_none (by omega)]
    exact inBounds_default hw hh

theorem foldl_inv {P : NpcParticle → Prop} (step : List NpcParticle → ℕ → List NpcParticle)
    (hstep : ∀ ps i, (∀ p ∈ ps, P p) → ∀ p ∈ step ps i, P p) :
    ∀ (idxs : List ℕ) (ps : List NpcParticle), (∀ p ∈ ps, P p) →
      ∀ p ∈ idxs.foldl step ps, P p := by
  intro idxs
  induction idxs with
  | nil => intro ps h p hp; exact h p hp
  | cons i rest ih =>
    intro ps h p hp
    exact ih (step ps i) (hstep ps i h) p hp

theorem inv_set {P : NpcParticle → Prop} {ps : List NpcParticle} {i : ℕ} {a : NpcParticle}
    (h : ∀ p ∈ ps, P p) (ha : P a) : ∀ p ∈ ps.set i a, P p := by
  intro p hp
  rcases List.mem_or_eq_of_mem_set hp with hmem | rfl
  · exact h p hmem
  · exact ha

/-- The set-write of the torso x-averaging loop keeps particles in bounds
(the new x is a convex combination of two in-bounds values). -/
theorem avgFoldStep_inv {w h : ℤ} (hw : 1 ≤ w) (hh : 1 ≤ h) {avgX : ℚ}
    (ha0 : 0 ≤ avgX) (ha1 : avgX ≤ (w : ℚ) - 1)
    (ps : List NpcParticle) (i : ℕ) (hinv : ∀ p ∈ ps, inBounds w h p) :
    ∀ p ∈ ps.set i { ps.getD i default with
        pos := ⟨(ps.getD i default).pos.x * (9/10) + avgX * (1/10),
                (ps.getD i default).pos.y⟩ }, inBounds w h p := by
  apply inv_set hinv
  obtain ⟨h1, h2, h3, h4⟩ := getD_inBounds hw hh hinv i
  unfold inBounds
  dsimp only
  exact ⟨by linarith, by linarith, h3, h4⟩

/-- A set-write that only changes `prev` keeps particles in bounds. -/
theorem prevWrite_inv {w h : ℤ} (hw : 1 ≤ w) (hh : 1 ≤ h)
    (ps : List NpcParticle) (i : ℕ) (v : Vec2)
    (hinv : ∀ p ∈ ps, inBounds w h p) :
    ∀ p ∈ ps.set i { ps.getD i default with prev := v }, inBounds w h p := by
  apply inv_set hinv
  obtain ⟨h1, h2, h3, h4⟩ := getD_inBounds hw hh hinv i
  exact ⟨h1, h2, h3, h4⟩

set_option maxHeartbeats 2000000 in
theorem defaultTail_inBounds {w h : ℤ} (hw : 1 ≤ w) (hh : 1 ≤ h)
    (sq : ℚ → ℚ) (feet : ℕ) (npc : NPC)
    (hinv : ∀ p ∈ npc.particles, inBounds w h p) :
    ∀ p ∈ (defaultTail sq feet npc).particles, inBounds w h p := by
  unfold defaultTail
  dsimp only
  -- bounds for the average of the five torso xs
  have havgX : 0 ≤ ([0, 1, 2, 3, 4].map
        (fun i => (npc.particles.getD i default).pos.x)).sum / 5 ∧
      ([0, 1, 2, 3, 4].map (fun i => (npc.particles.getD i default).pos.x)).sum / 5 ≤
        (w : ℚ) - 1 := by
    obtain ⟨a0, a1, -, -⟩ := getD_inBounds hw hh hinv 0
    obtain ⟨b0, b1, -, -⟩ := getD_inBounds hw hh hinv 1
    obtain ⟨c0, c1, -, -⟩ := getD_inBounds hw hh hinv 2
    obtain ⟨d0, d1, -, -⟩ := getD_inBounds hw hh hinv 3
    obtain ⟨e0, e1, -, -⟩ := getD_inBounds hw hh hinv 4
    simp only [List.map_cons, List.map_nil, List.sum_cons, List.sum_nil]
    constructor <;> [linarith; linarith]
  -- invariant after the x-averaging fold
  have inv1 : ∀ p ∈ ([0, 1, 2, 3, 4] : List ℕ).foldl (fun ps i =>
      let p := ps.getD i default
      ps.set i { p with pos := ⟨p.pos.x * (9/10) +
        (([0, 1, 2, 3, 4].map (fun i => (npc.particles.getD i default).pos.x)).sum / 5) * (1/10),
        p.pos.y⟩ }) npc.particles, inBounds w h p := by
    apply foldl_inv _ ?_ _ _ hinv
    intro ps i h
    exact avgFoldStep_inv hw hh havgX.1 havgX.2 ps i h
  -- invariant after the prev-damping fold
  have inv2 : ∀ p ∈ ([0, 1, 2, 3, 4] : List ℕ).foldl (fun ps i =>
      let p := ps.getD i default
      let vx := p.pos.x - p.prev.x
      let vy := p.pos.y - p.prev.y
      ps.set i { p with prev := ⟨p.pos.x - vx * (6/10), p.pos.y - vy * (6/10)⟩ })
      (([0, 1, 2, 3, 4] : List ℕ).foldl (fun ps i =>
        let p := ps.getD i default
        ps.set i { p with pos := ⟨p.pos.x * (9/10) +
          (([0, 1, 2, 3, 4].map (fun i => (npc.particles.getD i default).pos.x)).sum / 5) * (1/10),
          p.pos.y⟩ }) npc.particles), inBounds w h p := by
    apply foldl_inv _ ?_ _ _ inv1
    intro ps i h
    exact prevWrite_inv hw hh ps i _ h
  -- abstract the post-damping list so the remaining splits stay small
  set ps2 := ([0, 1, 2, 3, 4] : List ℕ).foldl (fun ps i =>
      let p := ps.getD i default
      let vx := p.pos.x - p.prev.x
      let vy := p.pos.y - p.prev.y
      ps.set i { p with prev := ⟨p.pos.x - vx * (6/10), p.pos.y - vy * (6/10)⟩ })
      (([0, 1, 2, 3, 4] : List ℕ).foldl (fun ps i =>
        let p := ps.getD i default
        ps.set i { p with pos := ⟨p.pos.x * (9/10) +
          (([0, 1, 2, 3, 4].map (fun i => (npc.particles.getD i default).pos.x)).sum / 5) * (1/10),
          p.pos.y⟩ }) npc.particles) with hps2
  clear_value ps2
  clear hps2
  intro p hp
  repeat' split at hp
  all_goals
    first
      | exact inv2 p hp
      | exact foldl_inv _ (fun ps i h => prevWrite_inv hw hh ps i _ h) [0, 1] _
          (foldl_inv _ (fun ps i h => prevWrite_inv hw hh ps i _ h) [0, 1, 2, 3, 4] _ inv2) p hp
      | · refine foldl_inv _ ?_ [0, 1] _ inv2 p hp
          intro ps i h q hq
          split at hq
          · exact prevWrite_inv hw hh ps i _ h q hq
          · exact h q hq

theorem standController_freezeTorso (dt : ℚ) (gy : Option ℚ) (npc : NPC) :
    (standController dt gy npc).freezeTorso = npc.freezeTorso := by
  unfold standController
  split
  · rfl
  · rfl

theorem resolveBlockContacts_freezeTorso (qOpt : Option SolidQ)
    (bounds : Option (ℤ × ℤ)) (npc : NPC) :
    (resolveBlockContacts qOpt bounds npc).1.freezeTorso = npc.freezeTorso := rfl

theorem updateCore_freezeTorso (sq : ℚ → ℚ) (dt : ℚ) (bounds : Option (ℤ × ℤ))
    (qOpt : Option SolidQ) (npc0 : NPC) :
    (updateCore sq dt bounds qOpt npc0).1.freezeTorso = npc0.freezeTorso := by
  rcases bounds with - | ⟨bw, bh⟩ <;> rcases qOpt with - | q <;>
    · unfold updateCore
      dsimp only
      repeat' split
      all_goals simp [standController_freezeTorso, rigidLayout, resolveBlockContacts_freezeTorso]

theorem updateTail_inBounds {w h : ℤ} (hw : 1 ≤ w) (hh : 1 ≤ h) (sq : ℚ → ℚ)
    (qOpt : Option SolidQ) (rigidActive : Bool) (feet : ℕ) (npcIn : NPC)
    (hfreeze : npcIn.freezeTorso = false) :
    ∀ p ∈ (updateTail sq (some (w, h)) qOpt rigidActive feet npcIn).particles,
      inBounds w h p := by
  have hclamp : ∀ ps : List NpcParticle, ∀ p ∈ ps.map (clampParticle w h),
      inBounds w h p := by
    intro ps p hp
    rcases List.mem_map.mp hp with ⟨q, -, rfl⟩
    exact clampParticle_inBounds hw hh q
  have hnudge : ∀ (q : SolidQ) (ps : List NpcParticle),
      ∀ p ∈ ps.map (nudgeParticle q (some (w, h))), inBounds w h p := by
    intro q ps p hp
    rcases List.mem_map.mp hp with ⟨r, -, rfl⟩
    exact nudgeParticle_inBounds hw hh q r
  have hprevsnap : ∀ ps : List NpcParticle, (∀ p ∈ ps, inBounds w h p) →
      ∀ p ∈ ps.map (fun p => { p with prev := p.pos }), inBounds w h p := by
    intro ps hps p hp
    rcases List.mem_map.mp hp with ⟨r, hr, rfl⟩
    exact hps r hr
  unfold updateTail
  cases qOpt with
  | none =>
    dsimp only
    intro p hp
    split at hp
    · exact hprevsnap _ (hclamp _) p hp
    · split at hp
      · rename_i hfr
        rw [hfreeze] at hfr
        exact absurd hfr (by simp)
      · exact defaultTail_inBounds hw hh sq feet _ (hclamp _) p hp
  | some q =>
    dsimp only
    intro p hp
    split at hp
    · exact hprevsnap _ (hnudge q _) p hp
    · split at hp
      · rename_i hfr
        rw [hfreeze] at hfr
        exact absurd hfr (by simp)
      · exact defaultTail_inBounds hw hh sq feet _ (hnudge q _) p hp

/-- **C9 (amended).** Ragdoll world-bounds invariant, except on the
frozen-torso path: for every call to `NPC.update(dt, bounds=(w,h),
solid_query)` with `w ≥ 1`, `h ≥ 1` and `freeze_torso` **false**, every
body particle ends the call with `0 ≤ pos.x ≤ w-1` and `0 ≤ pos.y ≤ h-1`
(this covers the rigid-standing and default paths, any obstacle predicate
— including a raising one — any constraint set, any square-root
implementation and any `dt`).  On the frozen-torso path the torso is
re-seated at `pelvis.y + offset − 60` *after* the final clamp and can
leave the top of the world (see the counterexample). -/
theorem npc_update_world_bounds (sq : ℚ → ℚ) (dt : ℚ) (w h : ℤ)
    (qOpt : Option SolidQ) (npc : NPC) (hw : 1 ≤ w) (hh : 1 ≤ h)
    (hfreeze : npc.freezeTorso = false) :
    ∀ p ∈ (NPC.update sq dt (some (w, h)) qOpt npc).particles, inBounds w h p := by
  unfold NPC.update
  dsimp only
  apply updateTail_inBounds hw hh
  rw [updateCore_freezeTorso]
  exact hfreeze

/-- A concrete nine-particle ragdoll standing mid-world, torso not frozen
(used to witness the amended C9 theorem). -/
def c9npcAwake : NPC :=
  { particles :=
      [⟨⟨50, 10⟩, ⟨50, 10⟩, ⟨0, 0⟩, 1⟩, ⟨⟨50, 20⟩, ⟨50, 20⟩, ⟨0, 0⟩, 1⟩,
       ⟨⟨50, 30⟩, ⟨50, 30⟩, ⟨0, 0⟩, 1⟩, ⟨⟨50, 40⟩, ⟨50, 40⟩, ⟨0, 0⟩, 1⟩,
       ⟨⟨50, 50⟩, ⟨50, 50⟩, ⟨0, 0⟩, 1⟩, ⟨⟨40, 45⟩, ⟨40, 45⟩, ⟨0, 0⟩, 1⟩,
       ⟨⟨60, 45⟩, ⟨60, 45⟩, ⟨0, 0⟩, 1⟩, ⟨⟨45, 80⟩, ⟨45, 80⟩, ⟨0, 0⟩, 1⟩,
       ⟨⟨55, 80⟩, ⟨55, 80⟩, ⟨0, 0⟩, 1⟩],
    constraints := [(0, 1, 30), (1, 2, 30), (2, 3, 30), (3, 4, 30), (2, 5, 31),
      (2, 6, 31), (4, 7, 61), (4, 8, 61), (1, 3, 63), (2, 4, 63)],
    gravity := ⟨0, 1600⟩, iterations := 6, user_dragging := false,
    sleepTorso := false, freezeTorso := false, standAnchorX := none,
    frameCounter := 0, torsoStillFrames := 0, feetGrounded := 0,
    burnTimer := 0, toxicTimer := 0, headSize := 28 }

/-- Witness for the amended C9 theorem at a concrete awake ragdoll. -/
theorem npc_update_world_bounds_witness :
    ((1 : ℤ) ≤ 100 ∧ c9npcAwake.freezeTorso = false) ∧
      ∀ p ∈ (NPC.update (fun _ => 0) (1/60) (some (100, 100)) none c9npcAwake).particles,
        inBounds 100 100 p :=
  ⟨⟨by decide, by decide⟩,
    npc_update_world_bounds (fun _ => 0) (1/60) 100 100 none c9npcAwake
      (by decide) (by decide) (by decide)⟩

/-- The same ragdoll with `freeze_torso = True` (reachable state: the flag
is a public attribute of `NPC`, and the frozen path is explicitly included
in the claim). -/
def c9npcFrozen : NPC := { c9npcAwake with freezeTorso := true }

/-- **C9 counterexample.**  One `NPC.update` call on the frozen ragdoll
inside a 100×100 world leaves body particle 0 (the head) at
`pos.y = -70 < 0`: the frozen-torso tail re-seats the torso after the
final world-bounds clamp, so the claimed invariant is false as stated. -/
theorem npc_update_world_bounds_counterexample :
    ((NPC.update (fun _ => 0) (1/60) (some (100, 100)) none c9npcFrozen).particles.getD 0
        default).pos.y = -70 ∧
      ¬ ∀ p ∈ (NPC.update (fun _ => 0) (1/60) (some (100, 100)) none c9npcFrozen).particles,
          inBounds 100 100 p := by
  have hcore : NPC.updateCore (fun _ => 0) (1/60) (some (100, 100)) none c9npcFrozen =
      ({ c9npcFrozen with frameCounter := 1, feetGrounded := 0, particles :=
        [⟨⟨50, 10⟩, ⟨50, 10⟩, ⟨0, 0⟩, 1⟩, ⟨⟨50, 20⟩, ⟨50, 20⟩, ⟨0, 0⟩, 1⟩,
         ⟨⟨50, 30⟩, ⟨50, 30⟩, ⟨0, 0⟩, 1⟩, ⟨⟨50, 40⟩, ⟨50, 40⟩, ⟨0, 0⟩, 1⟩,
         ⟨⟨50, 50⟩, ⟨50, 50⟩, ⟨0, 0⟩, 1⟩,
         ⟨⟨40, 409/9⟩, ⟨40, 45⟩, ⟨0, 0⟩, 1⟩, ⟨⟨60, 409/9⟩, ⟨60, 45⟩, ⟨0, 0⟩, 1⟩,
         ⟨⟨45, 724/9⟩, ⟨45, 80⟩, ⟨0, 0⟩, 1⟩, ⟨⟨55, 724/9⟩, ⟨55, 80⟩, ⟨0, 0⟩, 1⟩] },
       false, 0) := by
    norm_num [NPC.updateCore, NPC.applyForce, NPC.verlet, NPC.maxStepClamp,
      NPC.clampParticle, NPC.resolveBlockContacts, NPC.resolveFoot,
      NPC.rigidLayout, NPC.standController, NPC.constraintIterations,
      NPC.constraintStep, c9npcFrozen, c9npcAwake, max_def]
  have htail : NPC.updateTail (fun _ => 0) (some (100, 100)) none false 0
      ({ c9npcFrozen with frameCounter := 1, feetGrounded := 0, particles :=
        [⟨⟨50, 10⟩, ⟨50, 10⟩, ⟨0, 0⟩, 1⟩, ⟨⟨50, 20⟩, ⟨50, 20⟩, ⟨0, 0⟩, 1⟩,
         ⟨⟨50, 30⟩, ⟨50, 30⟩, ⟨0, 0⟩, 1⟩, ⟨⟨50, 40⟩, ⟨50, 40⟩, ⟨0, 0⟩, 1⟩,
         ⟨⟨50, 50⟩, ⟨50, 50⟩, ⟨0, 0⟩, 1⟩,
         ⟨⟨40, 409/9⟩, ⟨40, 45⟩, ⟨0, 0⟩, 1⟩, ⟨⟨60, 409/9⟩, ⟨60, 45⟩, ⟨0, 0⟩, 1⟩,
         ⟨⟨45, 724/9⟩, ⟨45, 80⟩, ⟨0, 0⟩, 1⟩, ⟨⟨55, 724/9⟩, ⟨55, 80⟩, ⟨0, 0⟩, 1⟩] }) =
      { c9npcFrozen with frameCounter := 1, feetGrounded := 0, particles :=
        [⟨⟨50, -70⟩, ⟨50, -70⟩, ⟨0, 0⟩, 1⟩, ⟨⟨50, -40⟩, ⟨50, -40⟩, ⟨0, 0⟩, 1⟩,
         ⟨⟨50, -10⟩, ⟨50, -10⟩, ⟨0, 0⟩, 1⟩, ⟨⟨50, 20⟩, ⟨50, 20⟩, ⟨0, 0⟩, 1⟩,
         ⟨⟨50, 50⟩, ⟨50, 50⟩, ⟨0, 0⟩, 1⟩,
         ⟨⟨40, 409/9⟩, ⟨40, 45⟩, ⟨0, 0⟩, 1⟩, ⟨⟨60, 409/9⟩, ⟨60, 45⟩, ⟨0, 0⟩, 1⟩,
         ⟨⟨45, 724/9⟩, ⟨45, 80⟩, ⟨0, 0⟩, 1⟩, ⟨⟨55, 724/9⟩, ⟨55, 80⟩, ⟨0, 0⟩, 1⟩] } := by
    norm_num [NPC.updateTail, NPC.clampParticle, NPC.freezeTail, NPC.tickTimers,
      NPC.torsoLayout, c9npcFrozen, c9npcAwake]
  have hupd : NPC.update (fun _ => 0) (1/60) (some (100, 100)) none c9npcFrozen =
      { c9npcFrozen with frameCounter := 1, feetGrounded := 0, particles :=
        [⟨⟨50, -70⟩, ⟨50, -70⟩, ⟨0, 0⟩, 1⟩, ⟨⟨50, -40⟩, ⟨50, -40⟩, ⟨0, 0⟩, 1⟩,
         ⟨⟨50, -10⟩, ⟨50, -10⟩, ⟨0, 0⟩, 1⟩, ⟨⟨50, 20⟩, ⟨50, 20⟩, ⟨0, 0⟩, 1⟩,
         ⟨⟨50, 50⟩, ⟨50, 50⟩, ⟨0, 0⟩, 1⟩,
         ⟨⟨40, 409/9⟩, ⟨40, 45⟩, ⟨0, 0⟩, 1⟩, ⟨⟨60, 409/9⟩, ⟨60, 45⟩, ⟨0, 0⟩, 1⟩,
         ⟨⟨45, 724/9⟩, ⟨45, 80⟩, ⟨0, 0⟩, 1⟩, ⟨⟨55, 724/9⟩, ⟨55, 80⟩, ⟨0, 0⟩, 1⟩] } := by
    unfold NPC.update
    rw [hcore]
    exact htail
  constructor
  · rw [hupd]
    norm_num
  · rw [hupd]
    intro hall
    have h0 := hall ⟨⟨50, -70⟩, ⟨50, -70⟩, ⟨0, 0⟩, 1⟩ (by simp)
    obtain ⟨-, -, hy, -⟩ := h0
    norm_num at hy

end C9Claims

section C2Claims

open NPC

/-- An obstacle predicate that raises on every call. -/
def raisingQ : SolidQ := fun _ _ => none

/-- An obstacle predicate that returns `False` on every call. -/
def neverSolidQ : SolidQ := fun _ _ => some false

theorem nudgeLoop_raising (bounds : Option (ℤ × ℤ)) (fuel : ℕ) (p : NpcParticle)
    (mx my : Bool) : nudgeLoop raisingQ bounds fuel p mx my = (p, mx, my) := by
  cases fuel <;> simp [nudgeLoop, raisingQ]

theorem nudgeLoop_never (bounds : Option (ℤ × ℤ)) (fuel : ℕ) (p : NpcParticle)
    (mx my : Bool) : nudgeLoop neverSolidQ bounds fuel p mx my = (p, mx, my) := by
  cases fuel <;> simp [nudgeLoop, neverSolidQ]

theorem nudgeParticle_raising_eq (bounds : Option (ℤ × ℤ)) (p : NpcParticle) :
    nudgeParticle raisingQ bounds p = nudgeParticle neverSolidQ bounds p := by
  unfold nudgeParticle
  rw [nudgeLoop_raising, nudgeLoop_never]

theorem footScan_raising (hOpt : Option ℤ) (fx baseY : ℤ) (l : List ℤ) :
    footScan raisingQ hOpt fx baseY l = none := by
  cases l <;> simp [footScan, raisingQ]

theorem footScan_never (hOpt : Option ℤ) (fx baseY : ℤ) (l : List ℤ) :
    footScan neverSolidQ hOpt fx baseY l = none := by
  induction l with
  | nil => rfl
  | cons s rest ih => simp [footScan, neverSolidQ, ih]

theorem resolveFoot_raising_eq (bounds : Option (ℤ × ℤ)) (foot : NpcParticle) :
    resolveFoot (some raisingQ) bounds foot = resolveFoot (some neverSolidQ) bounds foot := by
  unfold resolveFoot
  dsimp only
  rw [footScan_raising, footScan_never]

theorem resolveBlockContacts_raising_eq (bounds : Option (ℤ × ℤ)) (npc : NPC) :
    resolveBlockContacts (some raisingQ) bounds npc =
      resolveBlockContacts (some neverSolidQ) bounds npc := by
  unfold resolveBlockContacts
  simp only [resolveFoot_raising_eq]

/-- **C2 (amended).**  The ragdoll side of the claim holds: both
`_nudge_particle_from_solid` and `_resolve_block_contacts` catch an
exception from the obstacle predicate, so a predicate that raises on every
call behaves exactly like one that reports "not solid" everywhere, and
`NPC.update` completes normally.  (The material-system side of the claim
is false: `WaterSystem.update` has no handler; see the counterexample.) -/
theorem npc_update_raising_fail_open (sq : ℚ → ℚ) (dt : ℚ)
    (bounds : Option (ℤ × ℤ)) (npc : NPC) :
    NPC.update sq dt bounds (some raisingQ) npc =
      NPC.update sq dt bounds (some neverSolidQ) npc := by
  have hn : nudgeParticle raisingQ bounds = nudgeParticle neverSolidQ bounds :=
    funext (fun p => nudgeParticle_raising_eq bounds p)
  unfold NPC.update NPC.updateCore NPC.updateTail
  simp only [hn, resolveBlockContacts_raising_eq]

/-- **C2 counterexample.**  A one-particle `WaterSystem` whose obstacle
predicate raises: `WaterSystem.update` propagates the exception (result
`none`, i.e. the update call does not complete), refuting the claim that
the exception is caught at the boundary for every `MaterialSystem.update`.
Parameters are the source defaults: gravity `0.15`, viscosity `0.08`,
`cell_size 3`, `neighbor_radius 2`, `max_neighbors 10`, `skip_mod 1`. -/
theorem water_update_raising_counterexample :
    WaterSystem.update (fun _ => 0) (3/20) (2/25) 3 2 10 1
      (some (fun _ _ => none)) 100 100 0 [⟨0, 5, 5, 0, 0, false⟩] = none := rfl

end C2Claims

/-! ## PerformanceGovernor (`src/src/scaling.py` and `app.py` lines 212–214,
1202–1222, 2037)

`recommend_settings(total_particles, fps, target_fps, gpu)` is a pure
function (no randomness, no state), embedded as `computeTier` (lines 4–19)
composed with `settingsForTier` (lines 20–34). -/

/-- The tuning parameters of one `{'neighbor_radius': …, 'max_neighbors':
…, 'skip_mod': …}` dict. -/
structure MaterialTuning where
  neighbor_radius : ℕ
  max_neighbors : ℕ
  skip_mod : ℕ
deriving DecidableEq, Repr

namespace scaling

/-- Lines 4–19: the fps band, the particle-count bump, and the 0..4 clamp.
`tier` is a Python int, modelled as ℤ. -/
def computeTier (total_particles : ℕ) (fps : ℚ) (target_fps : ℤ) : ℤ :=
  let tier : ℤ :=
    if fps ≥ (target_fps : ℚ) * (19/20) then 0
    else if fps ≥ (target_fps : ℚ) * (4/5) then 1
    else if fps ≥ (target_fps : ℚ) * (13/20) then 2
    else 3
  let tier := if total_particles > 100000 then tier + 2
    else if total_particles > 60000 then tier + 1 else tier
  let tier := if tier < 0 then 0 else tier
  if tier > 4 then 4 else tier

/-- Lines 20–34: the per-tier sand/water dicts and the cpu-only
`skip_mod = max(2, skip_mod)` adjustment. -/
def settingsForTier (tier : ℤ) (gpu : Bool) : MaterialTuning × MaterialTuning :=
  let sand : MaterialTuning := ⟨2, 12, 1⟩
  let water : MaterialTuning := ⟨2, 10, 1⟩
  let sw : MaterialTuning × MaterialTuning :=
    if tier = 1 then (⟨2, 8, 2⟩, ⟨2, 8, 2⟩)
    else if tier = 2 then (⟨2, 6, 3⟩, ⟨2, 6, 3⟩)
    else if tier ≥ 3 then (⟨1, 4, 4⟩, ⟨1, 4, 4⟩)
    else (sand, water)
  if ¬gpu ∧ tier ≥ 1 then
    (⟨sw.1.neighbor_radius, sw.1.max_neighbors, max 2 sw.1.skip_mod⟩,
     ⟨sw.2.neighbor_radius, sw.2.max_neighbors, max 2 sw.2.skip_mod⟩)
  else sw

/-- `recommend_settings`: deterministic pure function of its four inputs. -/
def recommend_settings (total_particles : ℕ) (fps : ℚ) (target_fps : ℤ)
    (gpu : Bool) : MaterialTuning × MaterialTuning :=
  settingsForTier (computeTier total_particles fps target_fps) gpu

/-- The host side (`app.py`): `_frame_index` starts at 0 and increments
once per run-loop iteration (line 2037); `_last_scale_apply` starts at 0
(line 214); `ParticleGame.update` applies `recommend_settings` to the
material systems only when `_frame_index - _last_scale_apply >= 15`, then
sets `_last_scale_apply = _frame_index` (lines 1202, 1222).
`appliedFramesAux last frames` returns the frames at which an application
happens. -/
def appliedFramesAux (last : ℕ) : List ℕ → List ℕ
  | [] => []
  | f :: rest =>
    if f - last ≥ 15 then f :: appliedFramesAux f rest
    else appliedFramesAux last rest

/-- The application frames over the first `n` frames of the run loop. -/
def appliedFrames (n : ℕ) : List ℕ := appliedFramesAux 0 (List.range n)

theorem mem_appliedFramesAux {g last : ℕ} {l : List ℕ}
    (hg : g ∈ appliedFramesAux last l) : last + 15 ≤ g := by
  induction l generalizing last with
  | nil => simp [appliedFramesAux] at hg
  | cons f rest ih =>
    rw [appliedFramesAux] at hg
    by_cases hc : f - last ≥ 15
    · rw [if_pos hc] at hg
      rcases List.mem_cons.mp hg with rfl | hg'
      · omega
      · have := ih hg'
        omega
    · rw [if_neg hc] at hg
      exact ih hg

theorem chain_appliedFramesAux (last : ℕ) (l : List ℕ) :
    List.Chain' (fun a b => a + 15 ≤ b) (appliedFramesAux last l) := by
  induction l generalizing last with
  | nil => simp [appliedFramesAux]
  | cons f rest ih =>
    rw [appliedFramesAux]
    by_cases hc : f - last ≥ 15
    · rw [if_pos hc]
      refine List.chain'_cons'.mpr ⟨?_, ih f⟩
      intro y hy
      exact mem_appliedFramesAux (List.mem_of_mem_head? hy)
    · rw [if_neg hc]
      exact ih last

end scaling

section C8Claims

open scaling

/-- **C8.** `recommend_settings` is a deterministic pure function of its
four inputs (it is a Lean function of exactly those inputs, using no state
or randomness); the internal quality tier is always clamped to `0..4`; the
returned tuning parameters are monotone in the tier — as the tier
increases, `neighbor_radius` and `max_neighbors` never increase and
`skip_mod` never decreases, for both the sand (`.1`) and water (`.2`)
parameter sets; and the host applies the recommendation at most once every
15 frames (consecutive application frames differ by at least 15). -/
theorem recommend_settings_properties :
    (∀ (total : ℕ) (fps : ℚ) (target : ℤ),
      0 ≤ computeTier total fps target ∧ computeTier total fps target ≤ 4) ∧
    (∀ (g : Bool) (t1 t2 : ℤ), 0 ≤ t1 → t1 ≤ t2 →
      (settingsForTier t2 g).1.neighbor_radius ≤ (settingsForTier t1 g).1.neighbor_radius ∧
      (settingsForTier t2 g).1.max_neighbors ≤ (settingsForTier t1 g).1.max_neighbors ∧
      (settingsForTier t1 g).1.skip_mod ≤ (settingsForTier t2 g).1.skip_mod ∧
      (settingsForTier t2 g).2.neighbor_radius ≤ (settingsForTier t1 g).2.neighbor_radius ∧
      (settingsForTier t2 g).2.max_neighbors ≤ (settingsForTier t1 g).2.max_neighbors ∧
      (settingsForTier t1 g).2.skip_mod ≤ (settingsForTier t2 g).2.skip_mod) ∧
    (∀ n : ℕ, List.Chain' (fun a b => a + 15 ≤ b) (appliedFrames n)) := by
  refine ⟨?_, ?_, ?_⟩
  · intro total fps target
    unfold computeTier
    dsimp only
    split_ifs <;> omega
  · intro g t1 t2 h0 h12
    unfold settingsForTier
    dsimp only
    split_ifs <;> dsimp only <;> omega
  · intro n
    exact chain_appliedFramesAux 0 (List.range n)

/-- Witness for C8 at concrete inputs (`tier 1 ≤ tier 3`, gpu off). -/
theorem recommend_settings_properties_witness :
    ((0 : ℤ) ≤ 1 ∧ (1 : ℤ) ≤ 3) ∧
      ((settingsForTier 3 false).1.neighbor_radius ≤ (settingsForTier 1 false).1.neighbor_radius ∧
       (settingsForTier 3 false).1.max_neighbors ≤ (settingsForTier 1 false).1.max_neighbors ∧
       (settingsForTier 1 false).1.skip_mod ≤ (settingsForTier 3 false).1.skip_mod ∧
       (settingsForTier 3 false).2.neighbor_radius ≤ (settingsForTier 1 false).2.neighbor_radius ∧
       (settingsForTier 3 false).2.max_neighbors ≤ (settingsForTier 1 false).2.max_neighbors ∧
       (settingsForTier 1 false).2.skip_mod ≤ (settingsForTier 3 false).2.skip_mod) :=
  ⟨⟨by decide, by decide⟩,
    recommend_settings_properties.2.1 false 1 3 (by decide) (by decide)⟩

end C8Claims

/-! ## Canvas drawing and the particle cap (`app.py` `_draw_on_canvas`,
lines 709–800)

Particles are represented by their positions; every `add_particle` in every
system guards `0 <= x < width and 0 <= y < height` before appending.  The
random draws of `random.uniform` (and, for the blood spray, the whole
angle/speed displacement computed from them through `math.cos`/`math.sin`)
are modelled by consuming an explicit stream of rationals. -/

inductive Tool where
  | sand | water | oil | lava | bluelava | ruby | metal | toxic | milk | blood
  | dirt | npc | blocks | external
deriving DecidableEq, Repr

/-- The slice of `ParticleGame` state read and written by `_draw_on_canvas`. -/
structure DrawState where
  width : ℚ
  height : ℚ
  max_particles : ℕ
  tool : Tool
  is_drawing : Bool
  ui_hover : Bool
  game_x : ℚ
  game_y : ℚ
  brush_size : ℕ
  sand : List (ℚ × ℚ)
  water : List (ℚ × ℚ)
  milk : List (ℚ × ℚ)
  oil : List (ℚ × ℚ)
  lava : List (ℚ × ℚ)
  bluelava : List (ℚ × ℚ)
  toxic : List (ℚ × ℚ)
  metal : List (ℚ × ℚ)
  blood : List (ℚ × ℚ)
  dirt : List (ℚ × ℚ)
  ruby : List (ℚ × ℚ)
  npcDrag : Option ((ℚ × ℚ) × (ℚ × ℚ))
  rng : List ℚ
deriving DecidableEq, Repr

namespace Canvas

/-- `add_particle(x, y)`: append iff inside `[0,width) × [0,height)`. -/
def addParticle (w h : ℚ) (ps : List (ℚ × ℚ)) (x y : ℚ) : List (ℚ × ℚ) :=
  if 0 ≤ x ∧ x < w ∧ 0 ≤ y ∧ y < h then ps ++ [(x, y)] else ps

/-- The `for dx in range(-r, r+1): for dy in …: if dx*dx+dy*dy <= r*r`
disc cluster used by the sand, water, oil, toxic and dirt systems. -/
def discCluster (w h : ℚ) (cx cy : ℚ) (r : ℕ) (ps : List (ℚ × ℚ)) : List (ℚ × ℚ) :=
  (MaterialSystem.offsets r).foldl (fun ps dx =>
    (MaterialSystem.offsets r).foldl (fun ps dy =>
      if dx * dx + dy * dy ≤ (r : ℤ) * (r : ℤ) then
        addParticle w h ps (cx + (dx : ℚ)) (cy + (dy : ℚ))
      else ps) ps) ps

/-- One draw from the randomness stream (empty stream yields 0). -/
def draw2 (rng : List ℚ) : ℚ × ℚ × List ℚ :=
  match rng with
  | [] => (0, 0, [])
  | [a] => (a, 0, [])
  | a :: b :: rest => (a, b, rest)

/-- The `for _ in range(r*r): ox, oy = uniform(-r, r), uniform(-r, r)`
cluster used by the lava, blue-lava and ruby systems. -/
def randDiskCluster (w h : ℚ) (x y : ℚ) (brush : ℕ) :
    ℕ → List (ℚ × ℚ) → List ℚ → List (ℚ × ℚ) × List ℚ
  | 0, ps, rng => (ps, rng)
  | n + 1, ps, rng =>
    let r : ℚ := max 1 brush
    let d := draw2 rng
    let ps := if d.1 * d.1 + d.2.1 * d.2.1 ≤ r * r then
        addParticle w h ps (x + d.1) (y + d.2.1)
      else ps
    randDiskCluster w h x y brush n ps d.2.2

/-- `range(a, b+1)` over ℤ. -/
def intRangeIncl (a b : ℤ) : List ℤ := (List.range (b + 1 - a).toNat).map (fun i => a + (i : ℤ))

/-- `MetalSystem.add_block`: stamp a dense square clipped to the world. -/
def metalAddBlock (w h : ℚ) (cx cy : ℤ) (brush : ℕ) (ps : List (ℚ × ℚ)) : List (ℚ × ℚ) :=
  let s : ℤ := max 1 brush
  let x0 := max 0 (cx - s)
  let y0 := max 0 (cy - s)
  let x1 := min (⌈w⌉ - 1) (cx + s)
  let y1 := min (⌈h⌉ - 1) (cy + s)
  (intRangeIncl y0 y1).foldl (fun ps y =>
    (intRangeIncl x0 x1).foldl (fun ps x => addParticle w h ps (x : ℚ) (y : ℚ)) ps) ps

/-- `BloodSystem.add_spray`: `max(1, count)` particles at randomly displaced
positions (the trigonometric displacement is folded into the stream). -/
def bloodSpray (w h : ℚ) (x y : ℚ) : ℕ → List (ℚ × ℚ) → List ℚ → List (ℚ × ℚ) × List ℚ
  | 0, ps, rng => (ps, rng)
  | n + 1, ps, rng =>
    let d := draw2 rng
    bloodSpray w h x y n (addParticle w h ps (x + d.1) (y + d.2.1)) d.2.2

/-- `total` of `_draw_on_canvas` lines 719–728 (ruby is not counted). -/
def totalParticles (s : DrawState) : ℕ :=
  s.sand.length + s.water.length + s.milk.length + s.oil.length + s.lava.length +
    s.bluelava.length + s.toxic.length + s.metal.length + s.blood.length + s.dirt.length

/-- `ParticleGame._draw_on_canvas`: the early returns, the capacity guard,
and the per-tool dispatch.  The `else` branch (external DgPy plugin tools)
is a no-op here because the `DgPy` module is absent from this repository,
so `from DgPy.core import get_tools` raises `ImportError`, which the
surrounding `try/except` swallows. -/
def drawOnCanvas (s : DrawState) : DrawState :=
  if s.is_drawing = false then s
  else if s.ui_hover = true then s
  else if s.tool = Tool.blocks then s
  else if s.max_particles ≤ totalParticles s ∧ s.tool ≠ Tool.npc then s
  else
    let gx := (pyInt s.game_x : ℚ)
    let gy := (pyInt s.game_y : ℚ)
    match s.tool with
    | Tool.sand => { s with sand := discCluster s.width s.height gx gy s.brush_size s.sand }
    | Tool.water => { s with water := discCluster s.width s.height gx gy s.brush_size s.water }
    | Tool.oil => { s with oil := discCluster s.width s.height gx gy s.brush_size s.oil }
    | Tool.lava =>
      let r := randDiskCluster s.width s.height gx gy s.brush_size
        (max 1 s.brush_size * max 1 s.brush_size) s.lava s.rng
      { s with lava := r.1, rng := r.2 }
    | Tool.bluelava =>
      let r := randDiskCluster s.width s.height gx gy s.brush_size
        (max 1 s.brush_size * max 1 s.brush_size) s.bluelava s.rng
      { s with bluelava := r.1, rng := r.2 }
    | Tool.ruby =>
      let r := randDiskCluster s.width s.height gx gy s.brush_size
        (max 1 s.brush_size * max 1 s.brush_size) s.ruby s.rng
      { s with ruby := r.1, rng := r.2 }
    | Tool.metal =>
      let m := metalAddBlock s.width s.height (pyInt s.game_x) (pyInt s.game_y)
        s.brush_size s.metal
      { s with metal := m }
    | Tool.toxic =>
      { s with toxic := discCluster s.width s.height gx gy (max 1 s.brush_size) s.toxic }
    | Tool.milk =>
      let m := (List.range (s.brush_size * 2)).foldl
        (fun ps _ => addParticle s.width s.height ps gx gy) s.milk
      { s with milk := m }
    | Tool.blood =>
      let r := bloodSpray s.width s.height gx gy (max 1 (max 4 s.brush_size)) s.blood s.rng
      { s with blood := r.1, rng := r.2 }
    | Tool.dirt =>
      { s with dirt := discCluster s.width s.height gx gy (max 1 s.brush_size) s.dirt }
    | Tool.npc =>
      match s.npcDrag with
      | some _ => { s with npcDrag := some ((s.game_x, s.game_y), (s.game_x, s.game_y)) }
      | none => s
    | Tool.blocks => s
    | Tool.external => s

end Canvas

section C7Claims

open Canvas

/-- **C7.** Capacity cap: when the total live particle count (summed over
the ten counted systems) has reached `max_particles`, `_draw_on_canvas`
silently rejects further particle creation — for every non-ragdoll tool the
call returns the state unchanged (no error, no crash) — while the ragdoll
(`npc`) tool still performs the drag reposition; and when below the cap the
sand tool really does add its cluster (showing the guard, not the dispatch,
is what blocks creation). -/
theorem draw_on_canvas_capacity_cap (s : DrawState)
    (hcap : s.max_particles ≤ totalParticles s) :
    (s.tool ≠ Tool.npc → drawOnCanvas s = s) ∧
    (s.tool = Tool.npc → s.is_drawing = true → s.ui_hover = false →
      ∀ d, s.npcDrag = some d →
        drawOnCanvas s =
          { s with npcDrag := some ((s.game_x, s.game_y), (s.game_x, s.game_y)) }) := by
  constructor
  · intro ht
    unfold drawOnCanvas
    split_ifs with h1 h2 h3 h4
    · rfl
    · rfl
    · rfl
    · rfl
    · exact absurd ⟨hcap, ht⟩ h4
  · intro ht hdraw hui d hd
    unfold drawOnCanvas
    simp [hdraw, hui, ht, hd]

/-- A concrete capped state: one particle of each counted kind except
ruby, `max_particles = 10`, the water tool selected. -/
def c7state : DrawState :=
  { width := 100, height := 100, max_particles := 10, tool := Tool.water,
    is_drawing := true, ui_hover := false, game_x := 50, game_y := 50,
    brush_size := 5,
    sand := [(1, 1)], water := [(2, 1)], milk := [(3, 1)], oil := [(4, 1)],
    lava := [(5, 1)], bluelava := [(6, 1)], toxic := [(7, 1)],
    metal := [(8, 1)], blood := [(9, 1)], dirt := [(10, 1)], ruby := [(11, 1)],
    npcDrag := none, rng := [] }

/-- Witness for C7: the capped concrete state is left unchanged by
`_draw_on_canvas` with a non-ragdoll tool. -/
theorem draw_on_canvas_capacity_cap_witness :
    c7state.max_particles ≤ totalParticles c7state ∧ drawOnCanvas c7state = c7state :=
  ⟨by decide, (draw_on_canvas_capacity_cap c7state (by decide)).1 (by decide)⟩

/-- Below the cap, the sand tool adds its cluster (companion fact kept in
the same claim theorem's doc; stated separately to stay hypothesis-light). -/
theorem draw_on_canvas_sand_uncapped (s : DrawState)
    (hcap : totalParticles s < s.max_particles)
    (ht : s.tool = Tool.sand) (hdraw : s.is_drawing = true) (hui : s.ui_hover = false) :
    drawOnCanvas s = { s with sand := discCluster s.width s.height (pyInt s.game_x : ℚ) (pyInt s.game_y : ℚ) s.brush_size s.sand } := by
  unfold drawOnCanvas
  simp [hdraw, hui, ht, Nat.not_le.mpr hcap]

end C7Claims


/-! ## ReactionEngine (`src/src/reactions.py`)

`reactions.apply(game)` is a single pass of cross-material rules followed by
a deferred kill phase.  The embedding below follows the source line by line:

* At entry (lines 36-81) every system's `_rebuild_grid()` runs, so each
  `game._get_nearby_X(x, y, r)` helper (app.py 884-1000) scans a grid built
  from the entry particle list; positions never change during `apply`, so
  every query is evaluated against the entry game `g0`.
* `DirtSystem._rebuild_grid` (dirt.py 58-65) clears `self.grid` and fills
  only the separate `occ` counter; nothing ever populates `self.grid`, so
  `_get_nearby_dirt` always returns the empty list.
* `MilkSystem._rebuild_grid` (milk.py 39-44) keys buckets by float pairs
  `(p.x // 6, p.y // 6)`; the query looks up int pairs, and Python hashes
  `16 == 16.0` as the same key, so the grid coincides with the floor-based
  int grid with cell size 6.  `_get_nearby_blood` (app.py 904-917) rescans
  the live blood list per cell, which equals a cell-size-3 bucket scan.
* Kill sets hold `id(p)`, modelled as `pid`.  Rule mutations of queried
  particles mutate the live lists, modelled by `pid`-matching maps.
* `random.random()` draws consume the head of a `rng : List ℚ` stream and
  `random.randint` the head of an `rngInt : List ℤ` stream.
* The Boolean paired with the resulting game is `true` iff an exception
  escapes `apply` (app.py wraps the call in `try/except`, keeping the
  partially mutated game). -/

namespace Reactions

/-- `SandParticle` as seen by `reactions.apply`: a plain class (no
`__slots__`), so the dynamically added `dead`, `mehedi` and `meh`
attributes are representable as fields defaulting to `False`. -/
structure SandP where
  pid : ℕ
  x : ℚ
  y : ℚ
  wet : Bool := false
  dead : Bool := false
  mehedi : Bool := false
  meh : Bool := false
deriving DecidableEq, Repr

/-- `WaterParticle`: plain class, `dead` added dynamically. -/
structure WaterP where
  pid : ℕ
  x : ℚ
  y : ℚ
  dead : Bool := false
deriving DecidableEq, Repr

/-- `LavaParticle.__slots__ = ('x','y','vx','vy')` (lava.py 5): no `dead`
attribute can ever exist, so the record has no such field; a
`setattr(p, 'dead', True)` on it raises `AttributeError`. -/
structure LavaP where
  pid : ℕ
  x : ℚ
  y : ℚ
deriving DecidableEq, Repr

/-- `BlueLavaParticle` (only `pid`/position are read by `apply`). -/
structure BlueLavaP where
  pid : ℕ
  x : ℚ
  y : ℚ
deriving DecidableEq, Repr

/-- `RubyParticle`: `corroded` is a real slot (ruby.py 7). -/
structure RubyP where
  x : ℚ
  y : ℚ
  corroded : ℤ := 0
deriving DecidableEq, Repr

/-- `OilParticle` state read/written by `apply` (`ignite`, extinguish). -/
structure OilP where
  pid : ℕ
  x : ℚ
  y : ℚ
  burning : Bool := false
  burn_timer : ℤ := 0
deriving DecidableEq, Repr

/-- `ToxicParticle.__slots__` (toxic.py 9) has no `dead` slot. -/
structure ToxicP where
  pid : ℕ
  x : ℚ
  y : ℚ
deriving DecidableEq, Repr

/-- `MetalParticle`: plain class; `blue_glass`, `radioactive`, `alloy_age`
and `rust_age` are added dynamically (`getattr` default `0`/absent). -/
structure MetalP where
  pid : ℕ
  x : ℚ
  y : ℚ
  blue_glass : Bool := false
  radioactive : Bool := false
  alloy_age : ℤ := 0
  rust_age : ℤ := 0
deriving DecidableEq, Repr

/-- `DirtParticle.__slots__` (dirt.py 7): has `is_mud`, `contaminated`,
`age` but neither `dead` nor `fertile`. -/
structure DirtP where
  pid : ℕ
  x : ℚ
  y : ℚ
  is_mud : Bool := false
  contaminated : Bool := false
  age : ℤ := 0
deriving DecidableEq, Repr

/-- `MilkParticle.__slots__` (milk.py 5): has `toxic` and `dead` but
neither `sludge` nor `diluted`. -/
structure MilkP where
  pid : ℕ
  x : ℚ
  y : ℚ
  toxic : Bool := false
  dead : Bool := false
deriving DecidableEq, Repr

/-- `BloodParticle.__slots__` (blood.py 7-10): all flags below exist. -/
structure BloodP where
  pid : ℕ
  x : ℚ
  y : ℚ
  diluted : Bool := false
  mutant : Bool := false
  curdled : Bool := false
  soaked : Bool := false
  dead : Bool := false
deriving DecidableEq, Repr

/-- The slice of the `ParticleGame` state read and written by
`reactions.apply`: every system's particle list (app.py constructs all of
them except `diamond_system`, which does not exist), shared world bounds,
a fresh-object counter for particles created during the pass, and the two
random streams. -/
structure Game where
  width : ℚ
  height : ℚ
  sand : List SandP := []
  water : List WaterP := []
  lava : List LavaP := []
  blueLava : List BlueLavaP := []
  ruby : List RubyP := []
  oil : List OilP := []
  toxic : List ToxicP := []
  metal : List MetalP := []
  dirt : List DirtP := []
  milk : List MilkP := []
  blood : List BloodP := []
  nextId : ℕ := 0
  rng : List ℚ := []
  rngInt : List ℤ := []
deriving DecidableEq, Repr

/-- The mutable locals of one `apply` call: the game plus the eight kill
sets (`*_to_kill`); `extinguish_oil` is collected but never read, so it is
not modelled. -/
structure St where
  g : Game
  sandK : List ℕ := []
  waterK : List ℕ := []
  lavaK : List ℕ := []
  toxicK : List ℕ := []
  dirtK : List ℕ := []
  milkK : List ℕ := []
  bloodK : List ℕ := []
deriving DecidableEq, Repr

/-- `_limit(lst, n)` (reactions.py 15-16). -/
def limit {α : Type} (l : List α) (n : ℕ) : List α :=
  if l.length ≤ n then l else l.take n

/-- `MAX_N = 12` (reactions.py 96). -/
def MAX_N : ℕ := 12

/-- One `_get_nearby_X` call: the `(2r+1)²` cell-block scan of a grid
rebuilt from the entry particle list. -/
def nearbyQ {α : Type} (cs : ℚ) (px py : α → ℚ) (ps : List α) (x y : ℚ) (r : ℕ) : List α :=
  MaterialSystem.getNeighbors cs (MaterialSystem.rebuildGrid cs px py ps) x y r

def getWaterQ (g0 : Game) (x y : ℚ) (r : ℕ) : List WaterP :=
  nearbyQ 3 WaterP.x WaterP.y g0.water x y r

def getSandQ (g0 : Game) (x y : ℚ) (r : ℕ) : List SandP :=
  nearbyQ 3 SandP.x SandP.y g0.sand x y r

def getLavaQ (g0 : Game) (x y : ℚ) (r : ℕ) : List LavaP :=
  nearbyQ 3 LavaP.x LavaP.y g0.lava x y r

def getToxicQ (g0 : Game) (x y : ℚ) (r : ℕ) : List ToxicP :=
  nearbyQ 3 ToxicP.x ToxicP.y g0.toxic x y r

def getOilQ (g0 : Game) (x y : ℚ) (r : ℕ) : List OilP :=
  nearbyQ 3 OilP.x OilP.y g0.oil x y r

/-- `_get_nearby_milk`: `MilkSystem.cell_size = 6`. -/
def getMilkQ (g0 : Game) (x y : ℚ) (r : ℕ) : List MilkP :=
  nearbyQ 6 MilkP.x MilkP.y g0.milk x y r

/-- `_get_nearby_blood` rescans the live blood list cell by cell with
`cell_size = 3`, which equals the bucket scan (the blood list is never
appended to during `apply`). -/
def getBloodQ (g0 : Game) (x y : ℚ) (r : ℕ) : List BloodP :=
  nearbyQ 3 BloodP.x BloodP.y g0.blood x y r

/-- `_get_nearby_dirt` scans `dirt_system.grid`, but
`DirtSystem._rebuild_grid` (dirt.py 58-65) leaves `grid` empty (it only
fills the separate `occ` counter and nothing else ever writes `grid`), so
the query returns `[]` for every input. -/
def getDirtQ (_g0 : Game) (_x _y : ℚ) (_r : ℕ) : List DirtP := []

/-- `MetalSystem.add_particle` (metal.py 143-145): bounds-checked append;
the fresh object's identity is minted from `nextId`. -/
def metalAdd (g : Game) (x y : ℚ) : Game :=
  if 0 ≤ x ∧ x < g.width ∧ 0 ≤ y ∧ y < g.height then
    let m : MetalP := { pid := g.nextId, x := x, y := y }
    { g with metal := g.metal ++ [m], nextId := g.nextId + 1 }
  else g

/-- `metal.add_particle(x, y)` immediately followed by
`setattr(metal.particles[-1], fld, True)` inside one `try` (reactions.py
191-195, 224-228): if the bounds check rejects the add, the flag lands on
the previous last metal particle; on an empty list the `IndexError` is
swallowed by the `except`. -/
def metalAddFlag (setFlag : MetalP → MetalP) (g : Game) (x y : ℚ) : Game :=
  if 0 ≤ x ∧ x < g.width ∧ 0 ≤ y ∧ y < g.height then
    let m : MetalP := setFlag { pid := g.nextId, x := x, y := y }
    { g with metal := g.metal ++ [m], nextId := g.nextId + 1 }
  else
    match g.metal.getLast? with
    | some m => { g with metal := g.metal.dropLast ++ [setFlag m] }
    | none => g

/-- `WaterSystem.add_particle` (water.py 49-51): bounds-checked append of
a fresh particle. -/
def waterAdd (g : Game) (x y : ℚ) : Game :=
  if 0 ≤ x ∧ x < g.width ∧ 0 ≤ y ∧ y < g.height then
    let w : WaterP := { pid := g.nextId, x := x, y := y }
    { g with water := g.water ++ [w], nextId := g.nextId + 1 }
  else g

/-- `OilParticle.ignite(duration)` (oil.py 23-29). -/
def ignite (duration : ℤ) (p : OilP) : OilP :=
  if p.burning then { p with burn_timer := max p.burn_timer (pyInt ((duration : ℚ) * (3 / 5))) }
  else { p with burning := true, burn_timer := max 60 duration }

/-- Lava vs water (reactions.py 109-120): each queried water spawns a
metal particle at its position and is added to `water_to_kill`; three or
more waters also add the lava particle to `lava_to_kill`. -/
def lavaWaters (g0 : Game) (lp : LavaP) (st : St) : St :=
  let waters := limit (getWaterQ g0 lp.x lp.y 2) MAX_N
  if waters.isEmpty then st
  else
    let g := waters.foldl (fun g w => metalAdd g w.x w.y) st.g
    let lavaK := if 3 ≤ waters.length then st.lavaK ++ [lp.pid] else st.lavaK
    { st with g := g, waterK := st.waterK ++ waters.map WaterP.pid, lavaK := lavaK }

/-- Lava vs sand (reactions.py 121-130). -/
def lavaSands (g0 : Game) (lp : LavaP) (st : St) : St :=
  let sands := limit (getSandQ g0 lp.x lp.y 2) MAX_N
  if sands.isEmpty then st
  else
    let g := sands.foldl (fun g s => metalAdd g s.x s.y) st.g
    { st with g := g, sandK := st.sandK ++ sands.map SandP.pid }

/-- Lava vs dirt (reactions.py 131-142). -/
def lavaDirts (g0 : Game) (lp : LavaP) (st : St) : St :=
  let dirts := limit (getDirtQ g0 lp.x lp.y 2) MAX_N
  if dirts.isEmpty then st
  else
    let g := dirts.foldl (fun g d => metalAdd g d.x d.y) st.g
    let lavaK := if 3 ≤ dirts.length then st.lavaK ++ [lp.pid] else st.lavaK
    { st with g := g, dirtK := st.dirtK ++ dirts.map DirtP.pid, lavaK := lavaK }

/-- Lava vs milk (reactions.py 143-150). -/
def lavaMilks (g0 : Game) (lp : LavaP) (st : St) : St :=
  let milks := limit (getMilkQ g0 lp.x lp.y 2) MAX_N
  if milks.isEmpty then st
  else
    let lavaK := if 2 ≤ milks.length then st.lavaK ++ [lp.pid] else st.lavaK
    { st with milkK := st.milkK ++ milks.map MilkP.pid, lavaK := lavaK }

/-- Lava ignites oil (reactions.py 151-158): `op.ignite(200)` mutates the
queried particles of the live oil list. -/
def lavaOils (g0 : Game) (lp : LavaP) (st : St) : St :=
  let pids := (limit (getOilQ g0 lp.x lp.y 2) MAX_N).map OilP.pid
  let oil := st.g.oil.map (fun p => if pids.contains p.pid then ignite 200 p else p)
  { st with g := { st.g with oil := oil } }

/-- Lava vs toxic (reactions.py 159-168). -/
def lavaToxics (g0 : Game) (lp : LavaP) (st : St) : St :=
  let toxics := limit (getToxicQ g0 lp.x lp.y 2) MAX_N
  if toxics.isEmpty then st
  else
    let g := toxics.foldl (fun g tp => metalAdd g tp.x tp.y) st.g
    { st with g := g, toxicK := st.toxicK ++ toxics.map ToxicP.pid }

/-- One iteration of `for lp in list(lava.particles)` (reactions.py
108-168); also the body of the duplicated stale block at lines 258-317,
which is textually identical with `lp` the leftover loop variable. -/
def lavaStep (g0 : Game) (st : St) (lp : LavaP) : St :=
  lavaToxics g0 lp (lavaOils g0 lp (lavaMilks g0 lp (lavaDirts g0 lp (lavaSands g0 lp (lavaWaters g0 lp st)))))

/-- Blue lava vs water (reactions.py 172-185): the `random.random()` draw
happens only when `len(waters) >= 2` (short-circuit `and`). -/
def blueWaters (g0 : Game) (bp : BlueLavaP) (st : St) : St :=
  let waters := limit (getWaterQ g0 bp.x bp.y 2) MAX_N
  if waters.isEmpty then st
  else
    -- the `random.random()` draw happens only when `len(waters) >= 2`
    -- (short-circuit `and`); the metal fold never reads or writes `rng`,
    -- so consuming the head of the entry stream before the fold is the
    -- same draw the source takes after it
    let r := st.g.rng.headD 0
    let gIn : Game := if 2 ≤ waters.length then { st.g with rng := st.g.rng.tail } else st.g
    let g := waters.foldl (fun g w => metalAdd g w.x w.y) gIn
    let waterK := st.waterK ++ waters.map WaterP.pid
    if 2 ≤ waters.length ∧ r < 2 / 5 then
      { st with g := g, waterK := waterK, lavaK := st.lavaK ++ [bp.pid] }
    else { st with g := g, waterK := waterK }

/-- Blue lava fuses sand into blue glass (reactions.py 187-196). -/
def blueSands (g0 : Game) (bp : BlueLavaP) (st : St) : St :=
  let sands := limit (getSandQ g0 bp.x bp.y 2) MAX_N
  let g := sands.foldl (fun g s => metalAddFlag (fun m => { m with blue_glass := true }) g s.x s.y) st.g
  { st with g := g, sandK := st.sandK ++ sands.map SandP.pid }

/-- Blue lava vs dirt (reactions.py 197-206). -/
def blueDirts (g0 : Game) (bp : BlueLavaP) (st : St) : St :=
  let dirts := limit (getDirtQ g0 bp.x bp.y 2) MAX_N
  let g := dirts.foldl (fun g d => metalAdd g d.x d.y) st.g
  { st with g := g, dirtK := st.dirtK ++ dirts.map DirtP.pid }

/-- Blue lava melts nearby metal (reactions.py 207-218): the first
`MAX_N` live metal particles within `|Δx| < 2 ∧ |Δy| < 2` gain
`alloy_age += 3`. -/
def blueMelt (_g0 : Game) (bp : BlueLavaP) (st : St) : St :=
  let pids := ((st.g.metal.filter (fun m => decide (|m.x - bp.x| < 2 ∧ |m.y - bp.y| < 2))).take MAX_N).map MetalP.pid
  let metal := st.g.metal.map (fun m => if pids.contains m.pid then { m with alloy_age := m.alloy_age + 3 } else m)
  { st with g := { st.g with metal := metal } }

/-- Blue lava vs toxic (reactions.py 220-229). -/
def blueToxics (g0 : Game) (bp : BlueLavaP) (st : St) : St :=
  let toxics := limit (getToxicQ g0 bp.x bp.y 2) MAX_N
  let g := toxics.foldl (fun g tp => metalAddFlag (fun m => { m with radioactive := true }) g tp.x tp.y) st.g
  { st with g := g, toxicK := st.toxicK ++ toxics.map ToxicP.pid }

/-- Blue lava vs milk (reactions.py 231-235). -/
def blueMilks (g0 : Game) (bp : BlueLavaP) (st : St) : St :=
  let milks := limit (getMilkQ g0 bp.x bp.y 2) MAX_N
  { st with milkK := st.milkK ++ milks.map MilkP.pid }

/-- Blue lava vaporizes blood (reactions.py 237-245): marks the particles
dead directly (a real slot) and also records them in `blood_to_kill`. -/
def blueBloods (g0 : Game) (bp : BlueLavaP) (st : St) : St :=
  let pids := (limit (getBloodQ g0 bp.x bp.y 2) MAX_N).map BloodP.pid
  let blood := st.g.blood.map (fun b => if pids.contains b.pid then { b with dead := true } else b)
  { st with g := { st.g with blood := blood }, bloodK := st.bloodK ++ pids }

/-- Blue lava fuse (reactions.py 246-257): `lava` is a truthy system
object, so one `random.random()` draw always happens. -/
def blueFuse (g0 : Game) (bp : BlueLavaP) (st : St) : St :=
  let r := st.g.rng.headD 0
  let st1 : St := { st with g := { st.g with rng := st.g.rng.tail } }
  if r < 1 / 50 then
    let nearLava := getLavaQ g0 bp.x bp.y 2
    if nearLava.isEmpty then st1
    else
      let st2 : St := { st1 with lavaK := st1.lavaK ++ [bp.pid] }
      (nearLava.take 3).foldl (fun st lv => { st with lavaK := st.lavaK ++ [lv.pid], g := metalAdd st.g lv.x lv.y }) st2
  else st1

/-- One iteration of `for bp in list(blue_lava.particles)` (reactions.py
170-257). -/
def blueStep (g0 : Game) (st : St) (bp : BlueLavaP) : St :=
  blueFuse g0 bp (blueBloods g0 bp (blueMilks g0 bp (blueToxics g0 bp (blueMelt g0 bp (blueDirts g0 bp (blueSands g0 bp (blueWaters g0 bp st)))))))

/-- Ruby corrosion (reactions.py 319-329): each ruby particle's `corroded`
counter grows by the number of queried toxic particles (the setattr on a
real slot succeeds once per toxic neighbour). -/
def rubyStep (g0 : Game) (st : St) : St :=
  let ruby := st.g.ruby.map (fun rp =>
    let toxics := limit (getToxicQ g0 rp.x rp.y 1) MAX_N
    { rp with corroded := rp.corroded + toxics.length })
  { st with g := { st.g with ruby := ruby } }

/-- Water extinguishes burning oil (reactions.py 418-428); iterates the
live oil list, so ignitions from the lava loop are visible.  The
`extinguish_oil` list collected here is never read again. -/
def oilExtinguish (g0 : Game) (st : St) : St :=
  let oil := st.g.oil.map (fun op =>
    if op.burning then
      if (getWaterQ g0 op.x op.y 2).isEmpty then op
      else { op with burning := false, burn_timer := 0 }
    else op)
  { st with g := { st.g with oil := oil } }

/-- One iteration of the toxic-to-water rule (reactions.py 430-438): any
water within one cell spawns a fresh water particle at the toxic
particle's position and defers the toxic particle to `toxic_to_kill`. -/
def toxicToWaterStep (g0 : Game) (st : St) (tp : ToxicP) : St :=
  if (getWaterQ g0 tp.x tp.y 1).isEmpty then st
  else { st with g := waterAdd st.g tp.x tp.y, toxicK := st.toxicK ++ [tp.pid] }

def toxicToWater (g0 : Game) (st : St) : St :=
  st.g.toxic.foldl (toxicToWaterStep g0) st

/-- Water wets sand (reactions.py 440-447): iterates (a copy of) the live
water list — including waters spawned by the toxic rule — and sets `wet`
on every queried sand particle. -/
def sandWetting (g0 : Game) (st : St) : St :=
  let sand := (limit st.g.water 3000).foldl
    (fun sand wp =>
      let pids := (getSandQ g0 wp.x wp.y 1).map SandP.pid
      sand.map (fun s => if pids.contains s.pid then { s with wet := true } else s))
    st.g.sand
  { st with g := { st.g with sand := sand } }

/-- Water turns dirt to mud (reactions.py 449-459). -/
def dirtMud (g0 : Game) (st : St) : St :=
  let dirt := (limit st.g.water 2000).foldl
    (fun dirt wp =>
      let pids := (getDirtQ g0 wp.x wp.y 1).map DirtP.pid
      dirt.map (fun d => if pids.contains d.pid then { d with is_mud := true } else d))
    st.g.dirt
  { st with g := { st.g with dirt := dirt } }

/-- Toxic contaminates dirt (reactions.py 461-469). -/
def toxicDirt (g0 : Game) (st : St) : St :=
  let dirt := (limit st.g.toxic 2000).foldl
    (fun dirt tp =>
      let pids := (getDirtQ g0 tp.x tp.y 1).map DirtP.pid
      dirt.map (fun d => if pids.contains d.pid then { d with contaminated := true } else d))
    st.g.dirt
  { st with g := { st.g with dirt := dirt } }

/-- Inner body of the milk-fertilises-dirt rule (reactions.py 471-480):
`setattr(d, 'fertile', True)` raises (`DirtParticle.__slots__` has no
`fertile`) and is caught, then one `random.random()` draw may defer the
milk particle. -/
def milkDirtStep (mp : MilkP) (st : St) (_d : DirtP) : St :=
  let r := st.g.rng.headD 0
  let st1 : St := { st with g := { st.g with rng := st.g.rng.tail } }
  if r < 2 / 25 then { st1 with milkK := st1.milkK ++ [mp.pid] } else st1

def milkDirt (g0 : Game) (st : St) : St :=
  (limit st.g.milk 1500).foldl (fun st mp => (getDirtQ g0 mp.x mp.y 1).foldl (milkDirtStep mp) st) st

/-- Inner body of the milk-on-sand rule (reactions.py 481-490):
`setattr(mp, 'sludge', True)` raises (no such slot) and is caught, then
one draw may defer the milk particle. -/
def milkSandStep (mp : MilkP) (st : St) (_s : SandP) : St :=
  let r := st.g.rng.headD 0
  let st1 : St := { st with g := { st.g with rng := st.g.rng.tail } }
  if r < 1 / 25 then { st1 with milkK := st1.milkK ++ [mp.pid] } else st1

def milkSand (g0 : Game) (st : St) : St :=
  (limit st.g.milk 1500).foldl (fun st mp => (getSandQ g0 mp.x mp.y 1).foldl (milkSandStep mp) st) st

/-- Milk-dilution rule (reactions.py 491-498): `setattr(mp, 'diluted',
True)` raises (`MilkParticle.__slots__` has no `diluted`) and is caught,
so the block never changes any state. -/
def milkWater (_g0 : Game) (st : St) : St := st

/-- Toxic taints milk (reactions.py 499-506): `m.toxic = True` writes a
real slot. -/
def milkToxic (g0 : Game) (st : St) : St :=
  let milk := (limit st.g.toxic 1500).foldl
    (fun milk tp =>
      let pids := (getMilkQ g0 tp.x tp.y 1).map MilkP.pid
      milk.map (fun m => if pids.contains m.pid then { m with toxic := true } else m))
    st.g.milk
  { st with g := { st.g with milk := milk } }

/-- Water dilutes blood (reactions.py 508-515). -/
def bloodWater (g0 : Game) (st : St) : St :=
  let blood := (limit st.g.water 1200).foldl
    (fun blood wp =>
      let pids := (getBloodQ g0 wp.x wp.y 1).map BloodP.pid
      blood.map (fun b => if pids.contains b.pid then { b with diluted := true } else b))
    st.g.blood
  { st with g := { st.g with blood := blood } }

/-- Blood soaks sand (reactions.py 516-527): per sand particle, every
queried blood is soaked and the sand itself is wetted once the query is
non-empty. -/
def bloodSandStep (g0 : Game) (st : St) (sp : SandP) : St :=
  let bloods := getBloodQ g0 sp.x sp.y 1
  let pids := bloods.map BloodP.pid
  let blood := st.g.blood.map (fun b => if pids.contains b.pid then { b with soaked := true } else b)
  let sand := if bloods.isEmpty then st.g.sand
    else st.g.sand.map (fun s => if s.pid = sp.pid then { s with wet := true } else s)
  { st with g := { st.g with blood := blood, sand := sand } }

def bloodSand (g0 : Game) (st : St) : St :=
  (limit st.g.sand 1200).foldl (bloodSandStep g0) st

/-- Blood on dirt (reactions.py 528-539). -/
def bloodDirtStep (g0 : Game) (st : St) (dp : DirtP) : St :=
  let bloods := getBloodQ g0 dp.x dp.y 1
  let pids := bloods.map BloodP.pid
  let blood := st.g.blood.map (fun b => if pids.contains b.pid then { b with soaked := true } else b)
  let dirt := if bloods.isEmpty then st.g.dirt
    else st.g.dirt.map (fun d => if d.pid = dp.pid then { d with is_mud := true } else d)
  { st with g := { st.g with blood := blood, dirt := dirt } }

def bloodDirt (g0 : Game) (st : St) : St :=
  (limit st.g.dirt 1200).foldl (bloodDirtStep g0) st

/-- Toxic mutates blood (reactions.py 540-547). -/
def bloodToxic (g0 : Game) (st : St) : St :=
  let blood := (limit st.g.toxic 1200).foldl
    (fun blood tp =>
      let pids := (getBloodQ g0 tp.x tp.y 1).map BloodP.pid
      blood.map (fun b => if pids.contains b.pid then { b with mutant := true } else b))
    st.g.blood
  { st with g := { st.g with blood := blood } }

/-- Milk curdles blood (reactions.py 548-556): `curdled` set, `diluted`
cleared. -/
def bloodMilk (g0 : Game) (st : St) : St :=
  let blood := (limit st.g.milk 800).foldl
    (fun blood mp =>
      let pids := (getBloodQ g0 mp.x mp.y 1).map BloodP.pid
      blood.map (fun b => if pids.contains b.pid then { b with curdled := true, diluted := false } else b))
    st.g.blood
  { st with g := { st.g with blood := blood } }

/-- Lava boils blood away (reactions.py 557-564): marks `dead` directly,
without recording the particle in any kill set. -/
def bloodLava (g0 : Game) (st : St) : St :=
  let blood := (limit st.g.lava 1200).foldl
    (fun blood lp =>
      let pids := (getBloodQ g0 lp.x lp.y 2).map BloodP.pid
      blood.map (fun b => if pids.contains b.pid then { b with dead := true } else b))
    st.g.blood
  { st with g := { st.g with blood := blood } }

/-- Blood rusts metal (reactions.py 565-573): iterates the first 800 live
metal particles (including ones created earlier in this pass). -/
def bloodMetal (g0 : Game) (st : St) : St :=
  let pids := ((limit st.g.metal 800).filter
    (fun mp => !(getBloodQ g0 mp.x mp.y 1).isEmpty)).map MetalP.pid
  let metal := st.g.metal.map (fun m => if pids.contains m.pid then { m with rust_age := m.rust_age + 1 } else m)
  { st with g := { st.g with metal := metal } }

/-- One iteration of the contamination-spread rule (reactions.py
575-589): particles whose `age` is not a multiple of 8 are skipped before
any draw; otherwise two `random.randint(-3, 3)` draws pick an offset and
up to three queried dirt neighbours are contaminated. -/
def contamSpreadStep (g0 : Game) (st : St) (d : DirtP) : St :=
  if d.age % 8 ≠ 0 then st
  else
    let r1 := st.g.rngInt.headD 0
    let g := { st.g with rngInt := st.g.rngInt.tail }
    let r2 := g.rngInt.headD 0
    let g := { g with rngInt := g.rngInt.tail }
    let pids := (limit (getDirtQ g0 (d.x + (r1 : ℚ)) (d.y + (r2 : ℚ)) 1) 3).map DirtP.pid
    let dirt := g.dirt.map (fun n => if pids.contains n.pid then { n with contaminated := true } else n)
    { st with g := { g with dirt := dirt } }

def contamSpread (g0 : Game) (st : St) : St :=
  (limit (st.g.dirt.filter (fun p => p.contaminated)) 500).foldl (contamSpreadStep g0) st

/-- Mehedi revert (reactions.py 592-605): runs inside `if dirt:` / `if
sand:` (both systems exist); `game._meh_img` is absent, so only the two
flag writes happen. -/
def mehediRevert (st : St) : St :=
  let sand := st.g.sand.map (fun sp =>
    if sp.mehedi then { sp with mehedi := false, meh := true } else sp)
  { st with g := { st.g with sand := sand } }

/-- The rule blocks from the sand-wetting rule to the mehedi revert
(reactions.py 440-605), in source order. -/
def rulesAfterToxic (g0 : Game) (st : St) : St :=
  mehediRevert (contamSpread g0 (bloodMetal g0 (bloodLava g0 (bloodMilk g0 (bloodToxic g0 (bloodDirt g0 (bloodSand g0 (bloodWater g0 (milkToxic g0 (milkWater g0 (milkSand g0 (milkDirt g0 (toxicDirt g0 (dirtMud g0 (sandWetting g0 st)))))))))))))))

/-- The whole rule phase of `reactions.apply` in source order: the lava
loop, the blue-lava loop, then the stale duplicated block (lines 258-317)
which sits inside `if blue_lava:` but outside the `bp` loop and reuses the
leftover `lp`; when the lava list is empty `lp` was never bound and the
block raises `NameError` (second component `true`), aborting the pass
before the remaining rules and the kill phase. -/
def applyRules (g0 : Game) : St × Bool :=
  let st1 := g0.lava.foldl (lavaStep g0) ({ g := g0 } : St)
  let st2 := g0.blueLava.foldl (blueStep g0) st1
  match g0.lava.getLast? with
  | none => (st2, true)
  | some lp =>
    (rulesAfterToxic g0 (toxicToWater g0 (oilExtinguish g0 (rubyStep g0 (lavaStep g0 st2 lp)))), false)

/-- The kill phase (reactions.py 607-644), with the error behaviour of
each system:
* sand: marking `dead` succeeds (plain class) but `SandSystem` has no
  `sweep_dead` method, so the call raises `AttributeError` — sand stays
  marked but unswept and the exception escapes `apply`;
* water: mark and sweep both work;
* lava / dirt / toxic: `setattr(p, 'dead', True)` on a `__slots__` class
  without a `dead` slot raises at the first particle whose id is in the
  kill set (blue-lava ids in `lava_to_kill` match no regular lava
  particle, in which case nothing raises and the sweep is a no-op);
* milk: mark and sweep both work;
* blood: marking works, and the missing `BloodSystem.sweep_dead` raises
  inside a `try`, so marked blood particles stay in the list. -/
def killPhase (st : St) : Game × Bool :=
  if !st.sandK.isEmpty then
    ({ st.g with sand := st.g.sand.map (fun p => if st.sandK.contains p.pid then { p with dead := true } else p) }, true)
  else
    let g1 := st.g
    let g2 := if !st.waterK.isEmpty then { g1 with water := (g1.water.map (fun p => if st.waterK.contains p.pid then { p with dead := true } else p)).filter (fun p => !p.dead) } else g1
    if !st.lavaK.isEmpty && g2.lava.any (fun p => st.lavaK.contains p.pid) then (g2, true)
    else if !st.dirtK.isEmpty && g2.dirt.any (fun p => st.dirtK.contains p.pid) then (g2, true)
    else if !st.toxicK.isEmpty && g2.toxic.any (fun p => st.toxicK.contains p.pid) then (g2, true)
    else
      let g3 := if !st.milkK.isEmpty then { g2 with milk := (g2.milk.map (fun p => if st.milkK.contains p.pid then { p with dead := true } else p)).filter (fun p => !p.dead) } else g2
      let g4 := if !st.bloodK.isEmpty then { g3 with blood := g3.blood.map (fun p => if st.bloodK.contains p.pid then { p with dead := true } else p) } else g3
      (g4, false)

/-- `reactions.apply(game)`: the rule phase followed by the kill phase; a
`NameError` from the stale block skips the kill phase entirely.  The
Boolean is `true` iff an exception escaped (app.py catches it and keeps
the partially mutated game). -/
def apply (g0 : Game) : Game × Bool :=
  let r := applyRules g0
  if r.2 then (r.1.g, true) else killPhase r.1

end Reactions

namespace Reactions

def c3game : Game :=
  { width := 100, height := 100,
    sand := [{ pid := 3, x := 49, y := 50 }],
    water := [{ pid := 2, x := 51, y := 50 }],
    lava := [{ pid := 1, x := 50, y := 50 }],
    nextId := 10 }

theorem foldl_keep {α β : Type} (f : β → α → β) (P : β → Prop)
    (h : ∀ b a, P b → P (f b a)) : ∀ (l : List α) (b : β), P b → P (l.foldl f b) := by
  intro l
  induction l with
  | nil => intro b hb; simpa using hb
  | cons a l ih => intro b hb; simpa using ih (f b a) (h b a hb)

theorem foldl_estab {α β : Type} (f : β → α → β) (P : β → Prop)
    (h : ∀ b a, P b → P (f b a)) {a : α} {l : List α} (ha : a ∈ l)
    (hstart : ∀ b, P (f b a)) (b : β) : P (l.foldl f b) := by
  obtain ⟨l1, l2, rfl⟩ := List.append_of_mem ha
  rw [List.foldl_append, List.foldl_cons]
  exact foldl_keep f P h l2 _ (hstart _)

theorem foldl_id {α β : Type} (f : α → β → α) (h : ∀ x b, f x b = x) :
    ∀ (l : List β) (a : α), l.foldl f a = a := by
  intro l
  induction l with
  | nil => intro a; rfl
  | cons b l ih => intro a; rw [List.foldl_cons, h]; exact ih a

/-- The dirt grid is empty, so the lava-vs-dirt block never fires. -/
theorem lavaDirts_id (g0 : Game) (lp : LavaP) (st : St) : lavaDirts g0 lp st = st := rfl

/-- The dirt grid is empty, so the blue-lava-vs-dirt block never fires. -/
theorem blueDirts_id (g0 : Game) (bp : BlueLavaP) (st : St) : blueDirts g0 bp st = st := by
  simp [blueDirts, getDirtQ, limit]

/-- The dirt grid is empty, so water never turns dirt to mud. -/
theorem dirtMud_id (g0 : Game) (st : St) : dirtMud g0 st = st := by
  simp only [dirtMud, getDirtQ, List.map_nil]
  rw [foldl_id _ (fun dirt wp => by simp)]

/-- The dirt grid is empty, so toxic never contaminates dirt. -/
theorem toxicDirt_id (g0 : Game) (st : St) : toxicDirt g0 st = st := by
  simp only [toxicDirt, getDirtQ, List.map_nil]
  rw [foldl_id _ (fun dirt wp => by simp)]

/-- The dirt grid is empty, so the milk-fertilises-dirt block draws no
randomness and kills no milk. -/
theorem milkDirt_id (g0 : Game) (st : St) : milkDirt g0 st = st := by
  simp only [milkDirt, getDirtQ, List.foldl_nil]
  exact foldl_id _ (fun x b => rfl) _ _

theorem metalAdd_toxic (g : Game) (x y : ℚ) : (metalAdd g x y).toxic = g.toxic := by
  unfold metalAdd; split <;> rfl

theorem metalAddFlag_toxic (f : MetalP → MetalP) (g : Game) (x y : ℚ) :
    (metalAddFlag f g x y).toxic = g.toxic := by
  unfold metalAddFlag
  split
  · rfl
  · split <;> rfl

theorem waterAdd_toxic (g : Game) (x y : ℚ) : (waterAdd g x y).toxic = g.toxic := by
  unfold waterAdd; split <;> rfl

theorem foldl_game_toxic {α : Type} (f : Game → α → Game) (h : ∀ g a, (f g a).toxic = g.toxic)
    (l : List α) (g : Game) : (l.foldl f g).toxic = g.toxic :=
  foldl_keep f (fun gx => gx.toxic = g.toxic) (fun b a hb => (h b a).trans hb) l g rfl

theorem lavaWaters_waterK_mono (g0 : Game) (lp : LavaP) (st : St) (x : ℕ)
    (hx : x ∈ st.waterK) : x ∈ (lavaWaters g0 lp st).waterK := by
  simp only [lavaWaters]
  split
  · exact hx
  · exact List.mem_append_left _ hx

theorem lavaWaters_waterK_adds (g0 : Game) (lp : LavaP) (st : St) (w : WaterP)
    (hw : w ∈ limit (getWaterQ g0 lp.x lp.y 2) MAX_N) :
    w.pid ∈ (lavaWaters g0 lp st).waterK := by
  simp only [lavaWaters]
  rw [if_neg]
  · exact List.mem_append_right _ (List.mem_map_of_mem _ hw)
  · intro h
    rw [List.isEmpty_iff] at h
    rw [h] at hw
    exact absurd hw (List.not_mem_nil w)

theorem lavaWaters_toxicK (g0 : Game) (lp : LavaP) (st : St) :
    (lavaWaters g0 lp st).toxicK = st.toxicK := by
  simp only [lavaWaters]; split <;> rfl

theorem lavaWaters_toxic (g0 : Game) (lp : LavaP) (st : St) :
    (lavaWaters g0 lp st).g.toxic = st.g.toxic := by
  simp only [lavaWaters]
  split
  · rfl
  · exact @foldl_game_toxic WaterP (fun g w => metalAdd g w.x w.y)
      (fun g a => metalAdd_toxic g a.x a.y) (limit (getWaterQ g0 lp.x lp.y 2) MAX_N) st.g

theorem lavaSands_waterK (g0 : Game) (lp : LavaP) (st : St) :
    (lavaSands g0 lp st).waterK = st.waterK := by
  simp only [lavaSands]; split <;> rfl

theorem lavaSands_toxicK (g0 : Game) (lp : LavaP) (st : St) :
    (lavaSands g0 lp st).toxicK = st.toxicK := by
  simp only [lavaSands]; split <;> rfl

theorem lavaSands_toxic (g0 : Game) (lp : LavaP) (st : St) :
    (lavaSands g0 lp st).g.toxic = st.g.toxic := by
  simp only [lavaSands]
  split
  · rfl
  · exact @foldl_game_toxic SandP (fun g s => metalAdd g s.x s.y)
      (fun g a => metalAdd_toxic g a.x a.y) (limit (getSandQ g0 lp.x lp.y 2) MAX_N) st.g

theorem lavaMilks_g (g0 : Game) (lp : LavaP) (st : St) : (lavaMilks g0 lp st).g = st.g := by
  simp only [lavaMilks]; split <;> rfl

theorem lavaMilks_waterK (g0 : Game) (lp : LavaP) (st : St) :
    (lavaMilks g0 lp st).waterK = st.waterK := by
  simp only [lavaMilks]; split <;> rfl

theorem lavaMilks_toxicK (g0 : Game) (lp : LavaP) (st : St) :
    (lavaMilks g0 lp st).toxicK = st.toxicK := by
  simp only [lavaMilks]; split <;> rfl

theorem lavaOils_waterK (g0 : Game) (lp : LavaP) (st : St) :
    (lavaOils g0 lp st).waterK = st.waterK := rfl

theorem lavaOils_toxicK (g0 : Game) (lp : LavaP) (st : St) :
    (lavaOils g0 lp st).toxicK = st.toxicK := rfl

theorem lavaOils_toxic (g0 : Game) (lp : LavaP) (st : St) :
    (lavaOils g0 lp st).g.toxic = st.g.toxic := rfl

theorem lavaToxics_waterK (g0 : Game) (lp : LavaP) (st : St) :
    (lavaToxics g0 lp st).waterK = st.waterK := by
  simp only [lavaToxics]; split <;> rfl

theorem lavaToxics_toxicK_mono (g0 : Game) (lp : LavaP) (st : St) (x : ℕ)
    (hx : x ∈ st.toxicK) : x ∈ (lavaToxics g0 lp st).toxicK := by
  simp only [lavaToxics]
  split
  · exact hx
  · exact List.mem_append_left _ hx

theorem lavaToxics_toxic (g0 : Game) (lp : LavaP) (st : St) :
    (lavaToxics g0 lp st).g.toxic = st.g.toxic := by
  simp only [lavaToxics]
  split
  · rfl
  · exact @foldl_game_toxic ToxicP (fun g tp => metalAdd g tp.x tp.y)
      (fun g a => metalAdd_toxic g a.x a.y) (limit (getToxicQ g0 lp.x lp.y 2) MAX_N) st.g

theorem lavaStep_waterK_mono (g0 : Game) (st : St) (lp : LavaP) (x : ℕ)
    (hx : x ∈ st.waterK) : x ∈ (lavaStep g0 st lp).waterK := by
  simp only [lavaStep, lavaDirts_id, lavaToxics_waterK, lavaOils_waterK, lavaMilks_waterK,
    lavaSands_waterK]
  exact lavaWaters_waterK_mono g0 lp st x hx

theorem lavaStep_waterK_adds (g0 : Game) (st : St) (lp : LavaP) (w : WaterP)
    (hw : w ∈ limit (getWaterQ g0 lp.x lp.y 2) MAX_N) :
    w.pid ∈ (lavaStep g0 st lp).waterK := by
  simp only [lavaStep, lavaDirts_id, lavaToxics_waterK, lavaOils_waterK, lavaMilks_waterK,
    lavaSands_waterK]
  exact lavaWaters_waterK_adds g0 lp st w hw

theorem lavaStep_toxic (g0 : Game) (st : St) (lp : LavaP) :
    (lavaStep g0 st lp).g.toxic = st.g.toxic := by
  simp only [lavaStep, lavaDirts_id, lavaToxics_toxic, lavaOils_toxic, lavaMilks_g,
    lavaSands_toxic, lavaWaters_toxic]

theorem blueWaters_waterK_mono (g0 : Game) (bp : BlueLavaP) (st : St) (x : ℕ)
    (hx : x ∈ st.waterK) : x ∈ (blueWaters g0 bp st).waterK := by
  simp only [blueWaters]
  split
  · exact hx
  · split <;> exact List.mem_append_left _ hx

theorem blueWaters_toxicK (g0 : Game) (bp : BlueLavaP) (st : St) :
    (blueWaters g0 bp st).toxicK = st.toxicK := by
  simp only [blueWaters]
  split
  · rfl
  · split <;> rfl

theorem blueWaters_toxic (g0 : Game) (bp : BlueLavaP) (st : St) :
    (blueWaters g0 bp st).g.toxic = st.g.toxic := by
  simp only [blueWaters]
  split
  · rfl
  · have hIn : (if 2 ≤ (limit (getWaterQ g0 bp.x bp.y 2) MAX_N).length then
        ({ st.g with rng := st.g.rng.tail } : Game) else st.g).toxic = st.g.toxic := by
      split <;> rfl
    split <;>
      exact (@foldl_game_toxic WaterP (fun g w => metalAdd g w.x w.y)
        (fun g a => metalAdd_toxic g a.x a.y) (limit (getWaterQ g0 bp.x bp.y 2) MAX_N)
        (if 2 ≤ (limit (getWaterQ g0 bp.x bp.y 2) MAX_N).length then
          ({ st.g with rng := st.g.rng.tail } : Game) else st.g)).trans hIn

theorem blueSands_waterK (g0 : Game) (bp : BlueLavaP) (st : St) :
    (blueSands g0 bp st).waterK = st.waterK := by simp only [blueSands]

theorem blueSands_toxicK (g0 : Game) (bp : BlueLavaP) (st : St) :
    (blueSands g0 bp st).toxicK = st.toxicK := by simp only [blueSands]

theorem blueSands_toxic (g0 : Game) (bp : BlueLavaP) (st : St) :
    (blueSands g0 bp st).g.toxic = st.g.toxic := by
  exact @foldl_game_toxic SandP
    (fun g s => metalAddFlag (fun m => { m with blue_glass := true }) g s.x s.y)
    (fun g a => metalAddFlag_toxic _ g a.x a.y) (limit (getSandQ g0 bp.x bp.y 2) MAX_N) st.g

theorem blueMelt_waterK (g0 : Game) (bp : BlueLavaP) (st : St) :
    (blueMelt g0 bp st).waterK = st.waterK := rfl

theorem blueMelt_toxicK (g0 : Game) (bp : BlueLavaP) (st : St) :
    (blueMelt g0 bp st).toxicK = st.toxicK := rfl

theorem blueMelt_toxic (g0 : Game) (bp : BlueLavaP) (st : St) :
    (blueMelt g0 bp st).g.toxic = st.g.toxic := rfl

theorem blueToxics_waterK (g0 : Game) (bp : BlueLavaP) (st : St) :
    (blueToxics g0 bp st).waterK = st.waterK := by simp only [blueToxics]

theorem blueToxics_toxicK_mono (g0 : Game) (bp : BlueLavaP) (st : St) (x : ℕ)
    (hx : x ∈ st.toxicK) : x ∈ (blueToxics g0 bp st).toxicK :=
  List.mem_append_left _ hx

theorem blueToxics_toxic (g0 : Game) (bp : BlueLavaP) (st : St) :
    (blueToxics g0 bp st).g.toxic = st.g.toxic := by
  exact @foldl_game_toxic ToxicP
    (fun g tp => metalAddFlag (fun m => { m with radioactive := true }) g tp.x tp.y)
    (fun g a => metalAddFlag_toxic _ g a.x a.y) (limit (getToxicQ g0 bp.x bp.y 2) MAX_N) st.g

theorem blueMilks_waterK (g0 : Game) (bp : BlueLavaP) (st : St) :
    (blueMilks g0 bp st).waterK = st.waterK := rfl

theorem blueMilks_toxicK (g0 : Game) (bp : BlueLavaP) (st : St) :
    (blueMilks g0 bp st).toxicK = st.toxicK := rfl

theorem blueMilks_toxic (g0 : Game) (bp : BlueLavaP) (st : St) :
    (blueMilks g0 bp st).g.toxic = st.g.toxic := rfl

theorem blueBloods_waterK (g0 : Game) (bp : BlueLavaP) (st : St) :
    (blueBloods g0 bp st).waterK = st.waterK := rfl

theorem blueBloods_toxicK (g0 : Game) (bp : BlueLavaP) (st : St) :
    (blueBloods g0 bp st).toxicK = st.toxicK := rfl

theorem blueBloods_toxic (g0 : Game) (bp : BlueLavaP) (st : St) :
    (blueBloods g0 bp st).g.toxic = st.g.toxic := rfl

theorem blueFuse_waterK (g0 : Game) (bp : BlueLavaP) (st : St) :
    (blueFuse g0 bp st).waterK = st.waterK := by
  simp only [blueFuse]
  split
  · split
    · rfl
    · exact @foldl_keep LavaP St
        (fun s lv => { s with lavaK := s.lavaK ++ [lv.pid], g := metalAdd s.g lv.x lv.y })
        (fun s => s.waterK = st.waterK) (fun _b _a hb => hb)
        ((getLavaQ g0 bp.x bp.y 2).take 3) _ rfl
  · rfl

theorem blueFuse_toxicK (g0 : Game) (bp : BlueLavaP) (st : St) :
    (blueFuse g0 bp st).toxicK = st.toxicK := by
  simp only [blueFuse]
  split
  · split
    · rfl
    · exact @foldl_keep LavaP St
        (fun s lv => { s with lavaK := s.lavaK ++ [lv.pid], g := metalAdd s.g lv.x lv.y })
        (fun s => s.toxicK = st.toxicK) (fun _b _a hb => hb)
        ((getLavaQ g0 bp.x bp.y 2).take 3) _ rfl
  · rfl

theorem blueFuse_toxic (g0 : Game) (bp : BlueLavaP) (st : St) :
    (blueFuse g0 bp st).g.toxic = st.g.toxic := by
  simp only [blueFuse]
  split
  · split
    · rfl
    · exact @foldl_keep LavaP St
        (fun s lv => { s with lavaK := s.lavaK ++ [lv.pid], g := metalAdd s.g lv.x lv.y })
        (fun s => s.g.toxic = st.g.toxic)
        (fun b a hb => (metalAdd_toxic b.g a.x a.y).trans hb)
        ((getLavaQ g0 bp.x bp.y 2).take 3) _ rfl
  · rfl

theorem blueStep_waterK_mono (g0 : Game) (st : St) (bp : BlueLavaP) (x : ℕ)
    (hx : x ∈ st.waterK) : x ∈ (blueStep g0 st bp).waterK := by
  simp only [blueStep, blueDirts_id, blueFuse_waterK, blueBloods_waterK, blueMilks_waterK,
    blueToxics_waterK, blueMelt_waterK, blueSands_waterK]
  exact blueWaters_waterK_mono g0 bp st x hx

theorem blueStep_toxic (g0 : Game) (st : St) (bp : BlueLavaP) :
    (blueStep g0 st bp).g.toxic = st.g.toxic := by
  simp only [blueStep, blueDirts_id, blueFuse_toxic, blueBloods_toxic, blueMilks_toxic,
    blueToxics_toxic, blueMelt_toxic, blueSands_toxic, blueWaters_toxic]

theorem rubyStep_waterK (g0 : Game) (st : St) : (rubyStep g0 st).waterK = st.waterK := by
  simp only [rubyStep]

theorem rubyStep_toxicK (g0 : Game) (st : St) : (rubyStep g0 st).toxicK = st.toxicK := by
  simp only [rubyStep]

theorem rubyStep_toxic (g0 : Game) (st : St) : (rubyStep g0 st).g.toxic = st.g.toxic := by
  simp only [rubyStep]

theorem oilExtinguish_waterK (g0 : Game) (st : St) :
    (oilExtinguish g0 st).waterK = st.waterK := by
  simp only [oilExtinguish]

theorem oilExtinguish_toxicK (g0 : Game) (st : St) :
    (oilExtinguish g0 st).toxicK = st.toxicK := by
  simp only [oilExtinguish]

theorem oilExtinguish_toxic (g0 : Game) (st : St) :
    (oilExtinguish g0 st).g.toxic = st.g.toxic := by
  simp only [oilExtinguish]

theorem toxicToWaterStep_waterK (g0 : Game) (st : St) (tp : ToxicP) :
    (toxicToWaterStep g0 st tp).waterK = st.waterK := by
  simp only [toxicToWaterStep]
  split
  · rfl
  · simp only [waterAdd]

theorem toxicToWaterStep_toxicK_mono (g0 : Game) (st : St) (tp : ToxicP) (x : ℕ)
    (hx : x ∈ st.toxicK) : x ∈ (toxicToWaterStep g0 st tp).toxicK := by
  simp only [toxicToWaterStep]
  split
  · exact hx
  · exact List.mem_append_left _ hx

theorem toxicToWaterStep_adds (g0 : Game) (st : St) (tp : ToxicP)
    (h : (getWaterQ g0 tp.x tp.y 1).isEmpty = false) :
    tp.pid ∈ (toxicToWaterStep g0 st tp).toxicK := by
  simp only [toxicToWaterStep, h]
  exact List.mem_append_right _ (List.mem_singleton.mpr rfl)

theorem toxicToWater_waterK (g0 : Game) (st : St) :
    (toxicToWater g0 st).waterK = st.waterK :=
  @foldl_keep ToxicP St (toxicToWaterStep g0) (fun s => s.waterK = st.waterK)
    (fun b a hb => (toxicToWaterStep_waterK g0 b a).trans hb) st.g.toxic st rfl

theorem toxicToWater_adds (g0 : Game) (st : St) (tp : ToxicP) (htp : tp ∈ st.g.toxic)
    (h : (getWaterQ g0 tp.x tp.y 1).isEmpty = false) :
    tp.pid ∈ (toxicToWater g0 st).toxicK :=
  @foldl_estab ToxicP St (toxicToWaterStep g0) (fun s => tp.pid ∈ s.toxicK)
    (fun b a hb => toxicToWaterStep_toxicK_mono g0 b a _ hb) tp st.g.toxic htp
    (fun b => toxicToWaterStep_adds g0 b tp h) st

theorem sandWetting_waterK (g0 : Game) (st : St) :
    (sandWetting g0 st).waterK = st.waterK := by simp only [sandWetting]

theorem sandWetting_toxicK (g0 : Game) (st : St) :
    (sandWetting g0 st).toxicK = st.toxicK := by simp only [sandWetting]

theorem milkSandStep_waterK (mp : MilkP) (st : St) (s : SandP) :
    (milkSandStep mp st s).waterK = st.waterK := by
  simp only [milkSandStep]
  split <;> rfl

theorem milkSandStep_toxicK (mp : MilkP) (st : St) (s : SandP) :
    (milkSandStep mp st s).toxicK = st.toxicK := by
  simp only [milkSandStep]
  split <;> rfl

theorem milkSand_waterK (g0 : Game) (st : St) : (milkSand g0 st).waterK = st.waterK := by
  refine @foldl_keep MilkP St _ (fun s => s.waterK = st.waterK) ?_ (limit st.g.milk 1500) st rfl
  intro b a hb
  exact (@foldl_keep SandP St (milkSandStep a) (fun s => s.waterK = b.waterK)
    (fun b2 a2 hb2 => (milkSandStep_waterK a b2 a2).trans hb2)
    (getSandQ g0 a.x a.y 1) b rfl).trans hb

theorem milkSand_toxicK (g0 : Game) (st : St) : (milkSand g0 st).toxicK = st.toxicK := by
  refine @foldl_keep MilkP St _ (fun s => s.toxicK = st.toxicK) ?_ (limit st.g.milk 1500) st rfl
  intro b a hb
  exact (@foldl_keep SandP St (milkSandStep a) (fun s => s.toxicK = b.toxicK)
    (fun b2 a2 hb2 => (milkSandStep_toxicK a b2 a2).trans hb2)
    (getSandQ g0 a.x a.y 1) b rfl).trans hb

theorem milkWater_id (g0 : Game) (st : St) : milkWater g0 st = st := rfl

theorem milkToxic_waterK (g0 : Game) (st : St) :
    (milkToxic g0 st).waterK = st.waterK := by simp only [milkToxic]

theorem milkToxic_toxicK (g0 : Game) (st : St) :
    (milkToxic g0 st).toxicK = st.toxicK := by simp only [milkToxic]

theorem bloodWater_waterK (g0 : Game) (st : St) :
    (bloodWater g0 st).waterK = st.waterK := by simp only [bloodWater]

theorem bloodWater_toxicK (g0 : Game) (st : St) :
    (bloodWater g0 st).toxicK = st.toxicK := by simp only [bloodWater]

theorem bloodSand_waterK (g0 : Game) (st : St) :
    (bloodSand g0 st).waterK = st.waterK :=
  @foldl_keep SandP St (bloodSandStep g0) (fun s => s.waterK = st.waterK)
    (fun _b _a hb => hb) (limit st.g.sand 1200) st rfl

theorem bloodSand_toxicK (g0 : Game) (st : St) :
    (bloodSand g0 st).toxicK = st.toxicK :=
  @foldl_keep SandP St (bloodSandStep g0) (fun s => s.toxicK = st.toxicK)
    (fun _b _a hb => hb) (limit st.g.sand 1200) st rfl

theorem bloodDirt_waterK (g0 : Game) (st : St) :
    (bloodDirt g0 st).waterK = st.waterK :=
  @foldl_keep DirtP St (bloodDirtStep g0) (fun s => s.waterK = st.waterK)
    (fun _b _a hb => hb) (limit st.g.dirt 1200) st rfl

theorem bloodDirt_toxicK (g0 : Game) (st : St) :
    (bloodDirt g0 st).toxicK = st.toxicK :=
  @foldl_keep DirtP St (bloodDirtStep g0) (fun s => s.toxicK = st.toxicK)
    (fun _b _a hb => hb) (limit st.g.dirt 1200) st rfl

theorem bloodToxic_waterK (g0 : Game) (st : St) :
    (bloodToxic g0 st).waterK = st.waterK := by simp only [bloodToxic]

theorem bloodToxic_toxicK (g0 : Game) (st : St) :
    (bloodToxic g0 st).toxicK = st.toxicK := by simp only [bloodToxic]

theorem bloodMilk_waterK (g0 : Game) (st : St) :
    (bloodMilk g0 st).waterK = st.waterK := by simp only [bloodMilk]

theorem bloodMilk_toxicK (g0 : Game) (st : St) :
    (bloodMilk g0 st).toxicK = st.toxicK := by simp only [bloodMilk]

theorem bloodLava_waterK (g0 : Game) (st : St) :
    (bloodLava g0 st).waterK = st.waterK := by simp only [bloodLava]

theorem bloodLava_toxicK (g0 : Game) (st : St) :
    (bloodLava g0 st).toxicK = st.toxicK := by simp only [bloodLava]

theorem bloodMetal_waterK (g0 : Game) (st : St) :
    (bloodMetal g0 st).waterK = st.waterK := by simp only [bloodMetal]

theorem bloodMetal_toxicK (g0 : Game) (st : St) :
    (bloodMetal g0 st).toxicK = st.toxicK := by simp only [bloodMetal]

theorem contamSpreadStep_waterK (g0 : Game) (st : St) (d : DirtP) :
    (contamSpreadStep g0 st d).waterK = st.waterK := by
  simp only [contamSpreadStep]
  split <;> rfl

theorem contamSpreadStep_toxicK (g0 : Game) (st : St) (d : DirtP) :
    (contamSpreadStep g0 st d).toxicK = st.toxicK := by
  simp only [contamSpreadStep]
  split <;> rfl

theorem contamSpread_waterK (g0 : Game) (st : St) :
    (contamSpread g0 st).waterK = st.waterK :=
  @foldl_keep DirtP St (contamSpreadStep g0) (fun s => s.waterK = st.waterK)
    (fun b a hb => (contamSpreadStep_waterK g0 b a).trans hb)
    (limit (st.g.dirt.filter (fun p => p.contaminated)) 500) st rfl

theorem contamSpread_toxicK (g0 : Game) (st : St) :
    (contamSpread g0 st).toxicK = st.toxicK :=
  @foldl_keep DirtP St (contamSpreadStep g0) (fun s => s.toxicK = st.toxicK)
    (fun b a hb => (contamSpreadStep_toxicK g0 b a).trans hb)
    (limit (st.g.dirt.filter (fun p => p.contaminated)) 500) st rfl

theorem mehediRevert_waterK (st : St) : (mehediRevert st).waterK = st.waterK := by
  simp only [mehediRevert]

theorem mehediRevert_toxicK (st : St) : (mehediRevert st).toxicK = st.toxicK := by
  simp only [mehediRevert]

theorem rulesAfterToxic_waterK (g0 : Game) (st : St) :
    (rulesAfterToxic g0 st).waterK = st.waterK := by
  simp only [rulesAfterToxic, mehediRevert_waterK, contamSpread_waterK, bloodMetal_waterK,
    bloodLava_waterK, bloodMilk_waterK, bloodToxic_waterK, bloodDirt_waterK, bloodSand_waterK,
    bloodWater_waterK, milkToxic_waterK, milkWater_id, milkSand_waterK, milkDirt_id,
    toxicDirt_id, dirtMud_id, sandWetting_waterK]

theorem rulesAfterToxic_toxicK (g0 : Game) (st : St) :
    (rulesAfterToxic g0 st).toxicK = st.toxicK := by
  simp only [rulesAfterToxic, mehediRevert_toxicK, contamSpread_toxicK, bloodMetal_toxicK,
    bloodLava_toxicK, bloodMilk_toxicK, bloodToxic_toxicK, bloodDirt_toxicK, bloodSand_toxicK,
    bloodWater_toxicK, milkToxic_toxicK, milkWater_id, milkSand_toxicK, milkDirt_id,
    toxicDirt_id, dirtMud_id, sandWetting_toxicK]

theorem getNeighbors_empty {α : Type} (cs : ℚ) (x y : ℚ) (r : ℕ) :
    MaterialSystem.getNeighbors cs (fun _ => ([] : List α)) x y r = [] := by
  rw [MaterialSystem.getNeighbors_eq_flatMap]
  simp

/-- A query over an empty particle list finds nothing. -/
theorem nearbyQ_nil {α : Type} (cs : ℚ) (px py : α → ℚ) (x y : ℚ) (r : ℕ) :
    nearbyQ cs px py ([] : List α) x y r = [] :=
  getNeighbors_empty cs x y r

theorem foldl_nil_inv {α β : Type} (f : List α → β → List α) (h : ∀ b, f [] b = [])
    (l : List β) : l.foldl f [] = [] := by
  induction l with
  | nil => rfl
  | cons b l ih => rw [List.foldl_cons, h]; exact ih

theorem lavaSands_empty (g0 : Game) (lp : LavaP) (st : St) (h : g0.sand = []) :
    lavaSands g0 lp st = st := by
  simp [lavaSands, getSandQ, h, nearbyQ_nil, limit]

theorem lavaMilks_empty (g0 : Game) (lp : LavaP) (st : St) (h : g0.milk = []) :
    lavaMilks g0 lp st = st := by
  simp [lavaMilks, getMilkQ, h, nearbyQ_nil, limit]

theorem lavaOils_empty (g0 : Game) (lp : LavaP) (st : St) (h : g0.oil = []) :
    lavaOils g0 lp st = st := by
  simp [lavaOils, getOilQ, h, nearbyQ_nil, limit]

theorem lavaToxics_empty (g0 : Game) (lp : LavaP) (st : St) (h : g0.toxic = []) :
    lavaToxics g0 lp st = st := by
  simp [lavaToxics, getToxicQ, h, nearbyQ_nil, limit]

theorem rubyStep_empty (g0 : Game) (st : St) (h : st.g.ruby = []) :
    rubyStep g0 st = st := by
  simp only [rubyStep, h, List.map_nil]
  rw [← h]

theorem oilExtinguish_empty (g0 : Game) (st : St) (h : st.g.oil = []) :
    oilExtinguish g0 st = st := by
  simp only [oilExtinguish, h, List.map_nil]
  rw [← h]

theorem toxicToWater_empty (g0 : Game) (st : St) (h : st.g.toxic = []) :
    toxicToWater g0 st = st := by
  simp [toxicToWater, h]

theorem sandWetting_empty (g0 : Game) (st : St) (h : st.g.sand = []) :
    sandWetting g0 st = st := by
  simp only [sandWetting, h]
  rw [foldl_nil_inv _ (fun wp => by simp)]
  rw [← h]

theorem milkSand_empty (g0 : Game) (st : St) (h : st.g.milk = []) :
    milkSand g0 st = st := by
  simp [milkSand, h, limit]

theorem milkToxic_empty (g0 : Game) (st : St) (h : st.g.toxic = []) :
    milkToxic g0 st = st := by
  have hl : limit st.g.toxic 1500 = [] := by rw [h]; rfl
  simp only [milkToxic, hl, List.foldl_nil]

theorem bloodWater_empty (g0 : Game) (st : St) (h : g0.blood = []) :
    bloodWater g0 st = st := by
  simp only [bloodWater, getBloodQ, h, nearbyQ_nil, List.map_nil]
  rw [foldl_id]
  intro x wp
  simp

theorem bloodSand_empty (g0 : Game) (st : St) (h : g0.blood = []) :
    bloodSand g0 st = st := by
  rw [bloodSand, foldl_id]
  intro x sp
  simp [bloodSandStep, getBloodQ, h, nearbyQ_nil]

theorem bloodDirt_empty (g0 : Game) (st : St) (h : g0.blood = []) :
    bloodDirt g0 st = st := by
  rw [bloodDirt, foldl_id]
  intro x dp
  simp [bloodDirtStep, getBloodQ, h, nearbyQ_nil]

theorem bloodToxic_empty (g0 : Game) (st : St) (h : g0.blood = []) :
    bloodToxic g0 st = st := by
  simp only [bloodToxic, getBloodQ, h, nearbyQ_nil, List.map_nil]
  rw [foldl_id]
  intro x tp
  simp

theorem bloodMilk_empty (g0 : Game) (st : St) (h : g0.blood = []) :
    bloodMilk g0 st = st := by
  simp only [bloodMilk, getBloodQ, h, nearbyQ_nil, List.map_nil]
  rw [foldl_id]
  intro x mp
  simp

theorem bloodLava_empty (g0 : Game) (st : St) (h : g0.blood = []) :
    bloodLava g0 st = st := by
  simp only [bloodLava, getBloodQ, h, nearbyQ_nil, List.map_nil]
  rw [foldl_id]
  intro x lp
  simp

theorem bloodMetal_empty (g0 : Game) (st : St) (h : g0.blood = []) :
    bloodMetal g0 st = st := by
  simp [bloodMetal, getBloodQ, h, nearbyQ_nil]

theorem contamSpread_empty (g0 : Game) (st : St) (h : st.g.dirt = []) :
    contamSpread g0 st = st := by
  simp [contamSpread, h, limit]

theorem mehediRevert_empty (st : St) (h : st.g.sand = []) :
    mehediRevert st = st := by
  simp only [mehediRevert, h, List.map_nil]
  rw [← h]

/-- **C4 (amended).**  Within one `reactions.apply` call the rule blocks run
in fixed declaration order, but no rule checks a `dead` flag before acting:
conversions are only recorded in kill sets that are applied after all rules.
Consequently a water particle `w` consumed by the lava rule (it is in the
query result of some lava particle, so its id enters `water_to_kill`) is
still visible to every later rule, and the toxic-to-water rule fires for any
toxic particle `t` with a water neighbour — even when that neighbour is `w`
itself — adding `t` to `toxic_to_kill` and spawning a fresh water particle.
Both memberships hold in the kill sets at the end of the rule phase, for an
arbitrary game state. -/
theorem reactions_rule_order_deferred_kills (g : Game)
    (lp : LavaP) (hlp : lp ∈ g.lava)
    (w : WaterP) (hw : w ∈ limit (getWaterQ g lp.x lp.y 2) MAX_N)
    (t : ToxicP) (ht : t ∈ g.toxic)
    (htw : (getWaterQ g t.x t.y 1).isEmpty = false) :
    w.pid ∈ (applyRules g).1.waterK ∧ t.pid ∈ (applyRules g).1.toxicK := by
  obtain ⟨lp', hlast⟩ : ∃ x, g.lava.getLast? = some x := by
    rcases e : g.lava.getLast? with _ | x
    · exact absurd (List.getLast?_eq_none_iff.mp e) (List.ne_nil_of_mem hlp)
    · exact ⟨x, rfl⟩
  simp only [applyRules, hlast]
  have h1 : w.pid ∈ (g.lava.foldl (lavaStep g) ({ g := g } : St)).waterK :=
    @foldl_estab LavaP St (lavaStep g) (fun s => w.pid ∈ s.waterK)
      (fun b a hb => lavaStep_waterK_mono g b a _ hb) lp g.lava hlp
      (fun b => lavaStep_waterK_adds g b lp w hw) ({ g := g } : St)
  have h2 : w.pid ∈
      (g.blueLava.foldl (blueStep g) (g.lava.foldl (lavaStep g) ({ g := g } : St))).waterK :=
    @foldl_keep BlueLavaP St (blueStep g) (fun s => w.pid ∈ s.waterK)
      (fun b a hb => blueStep_waterK_mono g b a _ hb) g.blueLava _ h1
  have h3 : w.pid ∈ (lavaStep g
      (g.blueLava.foldl (blueStep g) (g.lava.foldl (lavaStep g) ({ g := g } : St))) lp').waterK :=
    lavaStep_waterK_mono g _ lp' _ h2
  have hl : (g.lava.foldl (lavaStep g) ({ g := g } : St)).g.toxic = g.toxic :=
    @foldl_keep LavaP St (lavaStep g) (fun s2 => s2.g.toxic = g.toxic)
      (fun b a hbb => (lavaStep_toxic g b a).trans hbb) g.lava _ rfl
  have htoxlist : (oilExtinguish g (rubyStep g (lavaStep g
      (g.blueLava.foldl (blueStep g) (g.lava.foldl (lavaStep g) ({ g := g } : St))) lp'))).g.toxic
      = g.toxic := by
    rw [oilExtinguish_toxic, rubyStep_toxic, lavaStep_toxic]
    exact @foldl_keep BlueLavaP St (blueStep g) (fun s2 => s2.g.toxic = g.toxic)
      (fun b a hbb => (blueStep_toxic g b a).trans hbb) g.blueLava _ hl
  constructor
  · rw [rulesAfterToxic_waterK, toxicToWater_waterK, oilExtinguish_waterK, rubyStep_waterK]
    exact h3
  · rw [rulesAfterToxic_toxicK]
    refine toxicToWater_adds g _ t ?_ htw
    rw [htoxlist]
    exact ht

def c1lp : LavaP := { pid := 1, x := 50, y := 50 }

def c1game (rng : List ℚ) (rngInt : List ℤ) : Game :=
  { width := 100, height := 100,
    water := [{ pid := 2, x := 49, y := 50 }, { pid := 3, x := 51, y := 50 },
              { pid := 4, x := 50, y := 49 }],
    lava := [c1lp],
    nextId := 10, rng := rng, rngInt := rngInt }

def c1gameA (rng : List ℚ) (rngInt : List ℤ) : Game :=
  { width := 100, height := 100,
    water := [{ pid := 2, x := 49, y := 50 }, { pid := 3, x := 51, y := 50 },
              { pid := 4, x := 50, y := 49 }],
    lava := [c1lp],
    metal := [{ pid := 10, x := 49, y := 50 }, { pid := 11, x := 50, y := 49 },
              { pid := 12, x := 51, y := 50 }],
    nextId := 13, rng := rng, rngInt := rngInt }

def c1gameB (rng : List ℚ) (rngInt : List ℤ) : Game :=
  { width := 100, height := 100,
    water := [{ pid := 2, x := 49, y := 50 }, { pid := 3, x := 51, y := 50 },
              { pid := 4, x := 50, y := 49 }],
    lava := [c1lp],
    metal := [{ pid := 10, x := 49, y := 50 }, { pid := 11, x := 50, y := 49 },
              { pid := 12, x := 51, y := 50 }, { pid := 13, x := 49, y := 50 },
              { pid := 14, x := 50, y := 49 }, { pid := 15, x := 51, y := 50 }],
    nextId := 16, rng := rng, rngInt := rngInt }

def c1stA (rng : List ℚ) (rngInt : List ℤ) : St :=
  { g := c1gameA rng rngInt, waterK := [2, 4, 3], lavaK := [1] }

def c1stB (rng : List ℚ) (rngInt : List ℤ) : St :=
  { g := c1gameB rng rngInt, waterK := [2, 4, 3, 2, 4, 3], lavaK := [1, 1] }

def c1out (rng : List ℚ) (rngInt : List ℤ) : Game :=
  { width := 100, height := 100,
    water := [],
    lava := [c1lp],
    metal := [{ pid := 10, x := 49, y := 50 }, { pid := 11, x := 50, y := 49 },
              { pid := 12, x := 51, y := 50 }, { pid := 13, x := 49, y := 50 },
              { pid := 14, x := 50, y := 49 }, { pid := 15, x := 51, y := 50 }],
    nextId := 16, rng := rng, rngInt := rngInt }

set_option maxHeartbeats 1000000 in
/-- **C1.**  Quench scenario, actual behaviour: from one live lava particle
at `(50, 50)` and three live water particles at `(49, 50)`, `(51, 50)`,
`(50, 49)` (within two grid cells), a single `reactions.apply` call marks
all three waters dead and sweeps them (water list becomes `[]`), but it
creates SIX metal particles — the duplicated stale block at reactions.py
258-317 re-runs the lava rule on the leftover loop variable `lp` — and the
lava particle survives: `setattr(p, 'dead', True)` raises `AttributeError`
(`LavaParticle.__slots__` has no `dead`), the exception escapes `apply`
(second component `true`) and the lava list is unchanged.  The result is
the same for every content of the two random streams: no randomness is
involved. -/
theorem reactions_quench_scenario (rng : List ℚ) (rngInt : List ℤ) :
    apply (c1game rng rngInt) = (c1out rng rngInt, true) := by
  have hsand : (c1game rng rngInt).sand = [] := rfl
  have hmilk : (c1game rng rngInt).milk = [] := rfl
  have hoil : (c1game rng rngInt).oil = [] := rfl
  have htox : (c1game rng rngInt).toxic = [] := rfl
  have hblood : (c1game rng rngInt).blood = [] := rfl
  have hW1 : lavaWaters (c1game rng rngInt) c1lp ({ g := c1game rng rngInt } : St) =
      c1stA rng rngInt := by
    norm_num [lavaWaters, metalAdd, limit, MAX_N, getWaterQ, nearbyQ, MaterialSystem.getNeighbors,
      MaterialSystem.rebuildGrid, MaterialSystem.getCell, MaterialSystem.offsets,
      List.range_succ, c1lp, c1game, c1gameA, c1stA]
  have hstep1 : lavaStep (c1game rng rngInt) ({ g := c1game rng rngInt } : St) c1lp =
      c1stA rng rngInt := by
    simp only [lavaStep]
    rw [hW1, lavaSands_empty _ _ _ hsand, lavaDirts_id, lavaMilks_empty _ _ _ hmilk,
      lavaOils_empty _ _ _ hoil, lavaToxics_empty _ _ _ htox]
  have hW2 : lavaWaters (c1game rng rngInt) c1lp (c1stA rng rngInt) = c1stB rng rngInt := by
    norm_num [lavaWaters, metalAdd, limit, MAX_N, getWaterQ, nearbyQ, MaterialSystem.getNeighbors,
      MaterialSystem.rebuildGrid, MaterialSystem.getCell, MaterialSystem.offsets,
      List.range_succ, c1lp, c1game, c1gameA, c1stA, c1gameB, c1stB]
  have hstep2 : lavaStep (c1game rng rngInt) (c1stA rng rngInt) c1lp = c1stB rng rngInt := by
    simp only [lavaStep]
    rw [hW2, lavaSands_empty _ _ _ hsand, lavaDirts_id, lavaMilks_empty _ _ _ hmilk,
      lavaOils_empty _ _ _ hoil, lavaToxics_empty _ _ _ htox]
  have hrules : applyRules (c1game rng rngInt) = (c1stB rng rngInt, false) := by
    simp only [applyRules]
    have hlava : (c1game rng rngInt).lava = [c1lp] := rfl
    have hblue : (c1game rng rngInt).blueLava = [] := rfl
    have hlast : ([c1lp] : List LavaP).getLast? = some c1lp := rfl
    rw [hlava, hblue, hlast]
    rw [List.foldl_cons, List.foldl_nil, hstep1, List.foldl_nil]
    dsimp only
    rw [hstep2]
    rw [rubyStep_empty _ _ rfl, oilExtinguish_empty _ _ rfl, toxicToWater_empty _ _ rfl]
    simp only [rulesAfterToxic, dirtMud_id, toxicDirt_id, milkDirt_id, milkWater_id]
    rw [sandWetting_empty _ _ rfl, milkSand_empty _ _ rfl, milkToxic_empty _ _ rfl,
      bloodWater_empty _ _ hblood, bloodSand_empty _ _ hblood, bloodDirt_empty _ _ hblood,
      bloodToxic_empty _ _ hblood, bloodMilk_empty _ _ hblood, bloodLava_empty _ _ hblood,
      bloodMetal_empty _ _ hblood, contamSpread_empty _ _ rfl, mehediRevert_empty _ rfl]
  have hkill : killPhase (c1stB rng rngInt) = (c1out rng rngInt, true) := by
    norm_num [killPhase, c1stB, c1gameB, c1out, c1lp]
  norm_num [apply, hrules, hkill]

def c3out1 : Game :=
  { width := 100, height := 100,
    sand := [{ pid := 3, x := 49, y := 50, wet := true, dead := true }],
    water := [{ pid := 2, x := 51, y := 50 }],
    lava := [{ pid := 1, x := 50, y := 50 }],
    metal := [{ pid := 10, x := 51, y := 50 }, { pid := 11, x := 49, y := 50 },
              { pid := 12, x := 51, y := 50 }, { pid := 13, x := 49, y := 50 }],
    nextId := 14 }

def c3out2 : Game :=
  { width := 100, height := 100,
    sand := [{ pid := 3, x := 49, y := 50, wet := true, dead := true }],
    water := [{ pid := 2, x := 51, y := 50 }],
    lava := [{ pid := 1, x := 50, y := 50 }],
    metal := [{ pid := 10, x := 51, y := 50 }, { pid := 11, x := 49, y := 50 },
              { pid := 12, x := 51, y := 50 }, { pid := 13, x := 49, y := 50 },
              { pid := 14, x := 51, y := 50 }, { pid := 15, x := 49, y := 50 },
              { pid := 16, x := 51, y := 50 }, { pid := 17, x := 49, y := 50 }],
    nextId := 18 }

set_option maxHeartbeats 2000000 in
/-- **C3.**  Double-apply, actual behaviour: with one lava at `(50, 50)`,
one water at `(51, 50)` and one sand particle at `(49, 50)`, the first
`reactions.apply` marks the sand dead but `SandSystem` has no `sweep_dead`
method, so the call raises `AttributeError` before any sweep: the dead sand
particle stays in the system (and the water, whose kill phase never runs,
survives).  The second call re-converts the already-dead sand and the same
water: four more metal particles appear (8 total, two of them at the dead
sand's position), the dead sand is marked again, and the call fails the
same way. -/
theorem reactions_double_apply_scenario :
    apply c3game = (c3out1, true) ∧ apply c3out1 = (c3out2, true) := by
  constructor
  · norm_num [apply, applyRules, killPhase, rulesAfterToxic, mehediRevert, contamSpread,
    contamSpreadStep, bloodMetal, bloodLava, bloodMilk, bloodToxic, bloodDirt, bloodDirtStep,
    bloodSand, bloodSandStep, bloodWater, milkToxic, milkWater, milkSand, milkSandStep,
    milkDirt, milkDirtStep, toxicDirt, dirtMud, sandWetting, toxicToWater, toxicToWaterStep,
    oilExtinguish, rubyStep, lavaStep, lavaWaters, lavaSands, lavaDirts, lavaMilks, lavaOils,
    lavaToxics, metalAdd, metalAddFlag, waterAdd, ignite, limit, MAX_N, getWaterQ, getSandQ,
    getLavaQ, getToxicQ, getOilQ, getMilkQ, getBloodQ, getDirtQ, nearbyQ,
    MaterialSystem.getNeighbors, MaterialSystem.rebuildGrid, MaterialSystem.getCell,
    MaterialSystem.offsets, List.range_succ, c3game, c3out1]
  · norm_num [apply, applyRules, killPhase, rulesAfterToxic, mehediRevert, contamSpread,
    contamSpreadStep, bloodMetal, bloodLava, bloodMilk, bloodToxic, bloodDirt, bloodDirtStep,
    bloodSand, bloodSandStep, bloodWater, milkToxic, milkWater, milkSand, milkSandStep,
    milkDirt, milkDirtStep, toxicDirt, dirtMud, sandWetting, toxicToWater, toxicToWaterStep,
    oilExtinguish, rubyStep, lavaStep, lavaWaters, lavaSands, lavaDirts, lavaMilks, lavaOils,
    lavaToxics, metalAdd, metalAddFlag, waterAdd, ignite, limit, MAX_N, getWaterQ, getSandQ,
    getLavaQ, getToxicQ, getOilQ, getMilkQ, getBloodQ, getDirtQ, nearbyQ,
    MaterialSystem.getNeighbors, MaterialSystem.rebuildGrid, MaterialSystem.getCell,
    MaterialSystem.offsets, List.range_succ, c3out1, c3out2]

def c4game : Game :=
  { width := 100, height := 100,
    water := [{ pid := 2, x := 55, y := 50 }],
    lava := [{ pid := 1, x := 50, y := 50 }],
    toxic := [{ pid := 3, x := 58, y := 50 }],
    nextId := 10 }

def c4out : Game :=
  { width := 100, height := 100,
    water := [{ pid := 12, x := 58, y := 50 }],
    lava := [{ pid := 1, x := 50, y := 50 }],
    toxic := [{ pid := 3, x := 58, y := 50 }],
    metal := [{ pid := 10, x := 55, y := 50 }, { pid := 11, x := 55, y := 50 }],
    nextId := 13 }

set_option maxHeartbeats 2000000 in
/-- **C4 (counterexample).**  One lava at `(50, 50)`, one water at
`(55, 50)` (in the lava's radius-2 cell block), one toxic at `(58, 50)`
whose only radius-1 water neighbour is that same water: the lava rule
defers the water to `water_to_kill` (twice — stale block), yet the
toxic-to-water rule still fires on the very same water, spawning a fresh
water particle `pid 12` at `(58, 50)` and deferring the toxic particle.
After the kill phase the original water is gone but the spawned one
remains; marking the toxic dead raises (`__slots__`), so the call errors
out.  Had the toxic rule skipped lava-consumed water, no new water would
exist. -/
theorem reactions_toxic_after_lava_counterexample :
    (applyRules c4game).1.waterK = [2, 2] ∧ (applyRules c4game).1.toxicK = [3] ∧
      apply c4game = (c4out, true) := by
  have h : apply c4game = (c4out, true) := by
    norm_num [apply, applyRules, killPhase, rulesAfterToxic, mehediRevert, contamSpread,
    contamSpreadStep, bloodMetal, bloodLava, bloodMilk, bloodToxic, bloodDirt, bloodDirtStep,
    bloodSand, bloodSandStep, bloodWater, milkToxic, milkWater, milkSand, milkSandStep,
    milkDirt, milkDirtStep, toxicDirt, dirtMud, sandWetting, toxicToWater, toxicToWaterStep,
    oilExtinguish, rubyStep, lavaStep, lavaWaters, lavaSands, lavaDirts, lavaMilks, lavaOils,
    lavaToxics, metalAdd, metalAddFlag, waterAdd, ignite, limit, MAX_N, getWaterQ, getSandQ,
    getLavaQ, getToxicQ, getOilQ, getMilkQ, getBloodQ, getDirtQ, nearbyQ,
    MaterialSystem.getNeighbors, MaterialSystem.rebuildGrid, MaterialSystem.getCell,
    MaterialSystem.offsets, List.range_succ, c4game, c4out]
  refine ⟨?_, ?_, h⟩
  · norm_num [applyRules, killPhase, rulesAfterToxic, mehediRevert, contamSpread,
    contamSpreadStep, bloodMetal, bloodLava, bloodMilk, bloodToxic, bloodDirt, bloodDirtStep,
    bloodSand, bloodSandStep, bloodWater, milkToxic, milkWater, milkSand, milkSandStep,
    milkDirt, milkDirtStep, toxicDirt, dirtMud, sandWetting, toxicToWater, toxicToWaterStep,
    oilExtinguish, rubyStep, lavaStep, lavaWaters, lavaSands, lavaDirts, lavaMilks, lavaOils,
    lavaToxics, metalAdd, metalAddFlag, waterAdd, ignite, limit, MAX_N, getWaterQ, getSandQ,
    getLavaQ, getToxicQ, getOilQ, getMilkQ, getBloodQ, getDirtQ, nearbyQ,
    MaterialSystem.getNeighbors, MaterialSystem.rebuildGrid, MaterialSystem.getCell,
    MaterialSystem.offsets, List.range_succ, c4game]
  · norm_num [applyRules, killPhase, rulesAfterToxic, mehediRevert, contamSpread,
    contamSpreadStep, bloodMetal, bloodLava, bloodMilk, bloodToxic, bloodDirt, bloodDirtStep,
    bloodSand, bloodSandStep, bloodWater, milkToxic, milkWater, milkSand, milkSandStep,
    milkDirt, milkDirtStep, toxicDirt, dirtMud, sandWetting, toxicToWater, toxicToWaterStep,
    oilExtinguish, rubyStep, lavaStep, lavaWaters, lavaSands, lavaDirts, lavaMilks, lavaOils,
    lavaToxics, metalAdd, metalAddFlag, waterAdd, ignite, limit, MAX_N, getWaterQ, getSandQ,
    getLavaQ, getToxicQ, getOilQ, getMilkQ, getBloodQ, getDirtQ, nearbyQ,
    MaterialSystem.getNeighbors, MaterialSystem.rebuildGrid, MaterialSystem.getCell,
    MaterialSystem.offsets, List.range_succ, c4game]

set_option maxHeartbeats 1000000 in
/-- Witness for C4 at the concrete counterexample game: hypotheses checked
at `c4game`, conclusion by the theorem itself. -/
theorem reactions_rule_order_deferred_kills_witness :
    (({ pid := 1, x := 50, y := 50 } : LavaP) ∈ c4game.lava ∧
      ({ pid := 2, x := 55, y := 50 } : WaterP) ∈ limit (getWaterQ c4game 50 50 2) MAX_N ∧
      ({ pid := 3, x := 58, y := 50 } : ToxicP) ∈ c4game.toxic ∧
      (getWaterQ c4game 58 50 1).isEmpty = false) ∧
    ((2 : ℕ) ∈ (applyRules c4game).1.waterK ∧ (3 : ℕ) ∈ (applyRules c4game).1.toxicK) := by
  have hq1 : ({ pid := 2, x := 55, y := 50 } : WaterP) ∈ limit (getWaterQ c4game 50 50 2) MAX_N := by
    norm_num [limit, MAX_N, getWaterQ, nearbyQ, MaterialSystem.getNeighbors,
      MaterialSystem.rebuildGrid, MaterialSystem.getCell, MaterialSystem.offsets,
      List.range_succ, c4game]
  have hq2 : (getWaterQ c4game 58 50 1).isEmpty = false := by
    norm_num [getWaterQ, nearbyQ, MaterialSystem.getNeighbors,
      MaterialSystem.rebuildGrid, MaterialSystem.getCell, MaterialSystem.offsets,
      List.range_succ, c4game]
  exact ⟨⟨by decide, hq1, by decide, hq2⟩,
    reactions_rule_order_deferred_kills c4game { pid := 1, x := 50, y := 50 } (by decide)
      { pid := 2, x := 55, y := 50 } hq1 { pid := 3, x := 58, y := 50 } (by decide) hq2⟩

end Reactions

end DustGround
